import Mathlib

/-!
Verification development for the core simulation kernel of a multi-vehicle
road-network traffic simulator (source files: Backend/vehicle.py and
Backend/multi_vehicle_simulator.py).

The Python code is shallowly embedded: Python floats become exact rationals,
Python dicts become association lists, the wall clock and the random number
generator become explicit parameters, and operations that can raise become
Except-valued functions.  External collaborators (pathfinder.a_star and the
traffic analyzer) are passed in as parameters: the kernel only consumes their
results.
-/

namespace TrafficSim

/-- Association-list lookup: first binding of the key, if any.
Models a Python dict read m[k] / m.get(k). -/
def alookup {α β : Type} [DecidableEq α] : List (α × β) → α → Option β
  | [], _ => none
  | (a, b) :: rest, k => if a = k then some b else alookup rest k

/-- Association-list write m[k] = v: overwrite the binding if the key is
present, append it otherwise. -/
def aset {α β : Type} [DecidableEq α] : List (α × β) → α → β → List (α × β)
  | [], k, v => [(k, v)]
  | (a, b) :: rest, k, v =>
    if a = k then (k, v) :: rest else (a, b) :: aset rest k v

/-- Association-list in-place update m[k] = f(m[k]); none when the key is
missing (a Python KeyError on the read m[k]). -/
def aupdate {α β : Type} [DecidableEq α] :
    List (α × β) → α → (β → β) → Option (List (α × β))
  | [], _, _ => none
  | (a, b) :: rest, k, f =>
    if a = k then some ((a, f b) :: rest)
    else (aupdate rest k f).map (fun m => (a, b) :: m)

/-- Association-list deletion del m[k] (first binding). -/
def aerase {α β : Type} [DecidableEq α] : List (α × β) → α → List (α × β)
  | [], _ => []
  | (a, b) :: rest, k => if a = k then rest else (a, b) :: aerase rest k

/-- Membership test k in m on the keys of an association list. -/
def acontains {α β : Type} [DecidableEq α] (m : List (α × β)) (k : α) : Bool :=
  (alookup m k).isSome

/-- Defaulted lookup, modelling Python dict.get(k, d). -/
def agetD {α β : Type} [DecidableEq α] (m : List (α × β)) (k : α) (d : β) : β :=
  (alookup m k).getD d

/-- A directed edge of the road graph, as the pair (from_node, to_node). -/
abbrev Edge := String × String

/-- vehicle.py VehicleType: the three kinds of mobile agents. -/
inductive VehicleType
  | car
  | bike
  | pedestrian
deriving DecidableEq

/-- The .value string of each VehicleType member, used in vehicle ids and as
the routing mode. -/
def VehicleType.value : VehicleType → String
  | .car => "car"
  | .bike => "bicycle"
  | .pedestrian => "pedestrian"

/-- vehicle.py Vehicle.SPEED_MULTIPLIERS: ideal speed in pixels per second. -/
def SPEED_MULTIPLIERS : VehicleType → ℚ
  | .car => 30
  | .bike => 20
  | .pedestrian => 10

/-- vehicle.py Vehicle.CAPACITY_USAGE: footprint of a vehicle on an edge. -/
def CAPACITY_USAGE : VehicleType → ℚ
  | .car => 1
  | .bike => 1 / 2
  | .pedestrian => 1 / 5

/-- vehicle.py VehicleStatus. -/
inductive VehicleStatus
  | waiting
  | moving
  | stuck
  | arrived
  | rerouting
deriving DecidableEq

/-- vehicle.py Vehicle: one mobile agent.  Wall-clock telemetry
(spawn_time, arrival_time) is omitted: it never feeds back into any state
transition of the kernel. -/
structure Vehicle where
  id : String
  vtype : VehicleType
  start_node : String
  goal_node : String
  current_node : String
  next_node : Option String
  path : List String
  path_index : ℕ
  status : VehicleStatus
  speed_multiplier : ℚ
  capacity_usage : ℚ
  position_on_edge : ℚ
  current_speed : ℚ
  target_speed : ℚ
  acceleration : ℚ
  wait_time : ℚ
  reroute_count : ℕ
  total_distance : ℚ
deriving DecidableEq

/-- Vehicle.__init__: draws a fresh id from the class-level counter
Vehicle._id_counter (threaded here explicitly as id_counter) and returns the
new vehicle together with the incremented counter.  The counter is bumped
unconditionally, before any path is known. -/
def mk_vehicle (vehicle_type : VehicleType) (start_node goal_node : String)
    (path : List String) (id_counter : ℕ) : Vehicle × ℕ :=
  let c := id_counter + 1
  ({ id := vehicle_type.value ++ "_" ++ toString c
     vtype := vehicle_type
     start_node := start_node
     goal_node := goal_node
     current_node := start_node
     next_node := none
     path := path
     path_index := 0
     status := .waiting
     speed_multiplier := SPEED_MULTIPLIERS vehicle_type
     capacity_usage := CAPACITY_USAGE vehicle_type
     position_on_edge := 0
     current_speed := 0
     target_speed := SPEED_MULTIPLIERS vehicle_type
     acceleration := 3 / 2
     wait_time := 0
     reroute_count := 0
     total_distance := 0 }, c)

/-- Vehicle.set_path: replace the path, reset the cursor to 0; with at least
two nodes also set next_node = path[1] and status MOVING, else clear
next_node.  The cost argument is accepted and ignored, as in the source.
Note that position_on_edge is not touched. -/
def set_path (v : Vehicle) (path : List String) (_cost : ℚ) : Vehicle :=
  let v1 := { v with path := path, path_index := 0 }
  if path.length > 1 then
    { v1 with next_node := some (path.getD 1 ""), status := .moving }
  else
    { v1 with next_node := none }

/-- Vehicle.move_to_next_node: advance the cursor; at the last node (or with
no usable path) become ARRIVED.  Returns the new vehicle and the boolean the
method returns.  The Python guard path_index >= len(path) - 1 is stated over
the integers, as Python evaluates it. -/
def move_to_next_node (v : Vehicle) : Vehicle × Bool :=
  if v.path = [] ∨ (v.path_index : ℤ) ≥ (v.path.length : ℤ) - 1 then
    ({ v with status := .arrived }, false)
  else
    let idx := v.path_index + 1
    let v1 := { v with path_index := idx, current_node := v.path.getD idx "" }
    if (idx : ℤ) < (v.path.length : ℤ) - 1 then
      ({ v1 with next_node := some (v.path.getD (idx + 1) "")
                 status := .moving
                 position_on_edge := 0 }, true)
    else
      ({ v1 with next_node := none, status := .arrived }, true)

/-- Vehicle.update_position: when status is MOVING or STUCK, slew
current_speed toward target_speed by at most acceleration * delta_time
without overshooting, then advance position_on_edge by
current_speed * delta_time / edge_length, clipping at 1.  Returns the new
vehicle and True exactly when the clip at 1 fired. -/
def update_position (v : Vehicle) (delta_time edge_length : ℚ) :
    Vehicle × Bool :=
  if v.status ≠ .moving ∧ v.status ≠ .stuck then (v, false)
  else
    let speed_diff := v.target_speed - v.current_speed
    let new_speed :=
      if |speed_diff| < v.acceleration * delta_time then v.target_speed
      else if speed_diff > 0 then v.current_speed + v.acceleration * delta_time
      else v.current_speed - v.acceleration * delta_time
    let new_pos := v.position_on_edge + new_speed * delta_time / edge_length
    if new_pos ≥ 1 then
      ({ v with current_speed := new_speed, position_on_edge := 1 }, true)
    else
      ({ v with current_speed := new_speed, position_on_edge := new_pos }, false)

/-- Vehicle.slow_down_for_vehicle_ahead with its default
min_distance = 30 px passed explicitly. -/
def slow_down_for_vehicle_ahead (v : Vehicle)
    (distance_to_vehicle min_distance : ℚ) : Vehicle :=
  if distance_to_vehicle < min_distance then
    { v with target_speed := 0, status := .stuck }
  else if distance_to_vehicle < min_distance * 2 then
    { v with target_speed :=
               v.speed_multiplier * (distance_to_vehicle / (min_distance * 2))
             status := .stuck }
  else
    let v1 := { v with target_speed := v.speed_multiplier }
    if v1.status = .stuck then { v1 with status := .moving } else v1

/-- Vehicle.get_current_edge: the edge the vehicle is on, when next_node is
set. -/
def get_current_edge (v : Vehicle) : Option Edge :=
  match v.next_node with
  | some n => some (v.current_node, n)
  | none => none

/-- Vehicle.increment_reroute. -/
def increment_reroute (v : Vehicle) : Vehicle :=
  { v with reroute_count := v.reroute_count + 1, status := .rerouting }

/-- The road graph of multi_vehicle_simulator: node to ordered list of
target nodes of its outgoing edges.  The per-mode base costs carried by the
edges are consumed only by the external pathfinder and are not needed by
the kernel state embedded here. -/
abbrev Graph := List (String × List String)

/-- All directed edges (u, v) of a graph, in iteration order. -/
def graph_edges (g : Graph) : List Edge :=
  (g.map (fun p => p.2.map (fun t => (p.1, t)))).flatten

/-- Accident severity, drawn by random.choice from minor, moderate,
severe. -/
inductive Severity
  | minor
  | moderate
  | severe
deriving DecidableEq

/-- The severity_multipliers table of create_accident and
resolve_accident. -/
def severity_multiplier : Severity → ℚ
  | .minor => 2
  | .moderate => 4
  | .severe => 10

/-- One accident record of MultiVehicleSimulator.accidents. -/
structure Accident where
  aid : String
  from_node : String
  to_node : String
  severity : Severity
  created_at : ℚ
  duration : ℚ
deriving DecidableEq

/-- The incident/weight-field state of MultiVehicleSimulator: the per-edge
traffic multipliers, the blocked-road map (keyed by edge; only the reason
from its metadata record is kept, the redundant node copies and the
blocked_at timestamp do not feed any transition), the accident book and the
accident id counter. -/
structure SimState where
  traffic_multipliers : List (Edge × ℚ)
  blocked_roads : List (Edge × String)
  accidents : List (String × Accident)
  accident_counter : ℕ
deriving DecidableEq

/-- Modelled from the spec: config.DEFAULT_TRAFFIC_MULTIPLIER (the config
module is not part of this repository slice); the spec fixes the
WeightField default multiplier at 1.0. -/
def DEFAULT_TRAFFIC_MULTIPLIER : ℚ := 1

/-- MultiVehicleSimulator._initialize_traffic_multipliers: assign the
default multiplier to every edge of the graph (existing bindings for those
edges are overwritten; nothing else is removed). -/
def init_traffic_multipliers (g : Graph) (m : List (Edge × ℚ)) :
    List (Edge × ℚ) :=
  (graph_edges g).foldl (fun acc e => aset acc e DEFAULT_TRAFFIC_MULTIPLIER) m

/-- MultiVehicleSimulator.create_accident, explicit-edge branch (with both
node arguments given; the random-edge branch first returns None on an empty
graph and then picks an existing edge, after which the same body runs).
The random draws (severity, duration) and the wall clock are parameters.
The source increments the accident counter and registers the accident
before the in-place update self.traffic_multipliers[(u, v)] *= factor, so
on a missing multiplier key the state is returned as mutated up to that
point and the KeyError is reported as an Except.error. -/
def create_accident (s : SimState) (from_node to_node : String)
    (severity : Severity) (duration now : ℚ) :
    SimState × Except String Accident :=
  let s1 := { s with accident_counter := s.accident_counter + 1 }
  let aid := "accident_" ++ toString s1.accident_counter
  let acc : Accident :=
    { aid := aid, from_node := from_node, to_node := to_node
      severity := severity, created_at := now, duration := duration }
  let s2 := { s1 with accidents := aset s1.accidents aid acc }
  match aupdate s2.traffic_multipliers (from_node, to_node)
      (fun m => m * severity_multiplier severity) with
  | some tm => ({ s2 with traffic_multipliers := tm }, .ok acc)
  | none => (s2, .error "KeyError")

/-- MultiVehicleSimulator.resolve_accident: an unknown id reports False;
for a known accident the severity factor is divided back out of the edge
multiplier and the accident is deleted.  The division is the in-place
update self.traffic_multipliers[edge] /= factor, so a missing multiplier
key would raise before the deletion: modelled as an Except.error with the
state unchanged. -/
def resolve_accident (s : SimState) (accident_id : String) :
    SimState × Except String Bool :=
  match alookup s.accidents accident_id with
  | none => (s, .ok false)
  | some acc =>
    match aupdate s.traffic_multipliers (acc.from_node, acc.to_node)
        (fun m => m / severity_multiplier acc.severity) with
    | some tm =>
      ({ s with traffic_multipliers := tm
                accidents := aerase s.accidents accident_id }, .ok true)
    | none => (s, .error "KeyError")

/-- MultiVehicleSimulator.block_road: fails (False) on an edge with no
multiplier entry; otherwise records the block and sets the multiplier to
100. -/
def block_road (s : SimState) (from_node to_node reason : String) :
    SimState × Bool :=
  let edge : Edge := (from_node, to_node)
  if acontains s.traffic_multipliers edge then
    ({ s with blocked_roads := aset s.blocked_roads edge reason
              traffic_multipliers := aset s.traffic_multipliers edge 100 },
     true)
  else (s, false)

/-- MultiVehicleSimulator.unblock_road: fails (False) on an edge that is
not currently blocked; otherwise removes the block and sets the multiplier
back to the default. -/
def unblock_road (s : SimState) (from_node to_node : String) :
    SimState × Bool :=
  let edge : Edge := (from_node, to_node)
  if acontains s.blocked_roads edge then
    ({ s with blocked_roads := aerase s.blocked_roads edge
              traffic_multipliers :=
                aset s.traffic_multipliers edge DEFAULT_TRAFFIC_MULTIPLIER },
     true)
  else (s, false)

/-- The hotspot-drift body of simulation_tick for one congestion-point
edge: guarded by multiplier-key presence and congestion_factor > 0.3, the
multiplier moves by an exponential moving average (alpha = 0.3) toward
min(multiplier * (1 + congestion_factor * u), 5), where u is the uniform
draw from [0.5, 2.0]. -/
def hotspot_drift (s : SimState) (edge : Edge) (congestion_factor u : ℚ) :
    SimState :=
  match alookup s.traffic_multipliers edge with
  | some base =>
    if congestion_factor > 3 / 10 then
      let time_penalty := 1 + congestion_factor * u
      let new_multiplier := min (base * time_penalty) 5
      let smoothed := base * (7 / 10) + new_multiplier * (3 / 10)
      { s with traffic_multipliers := aset s.traffic_multipliers edge smoothed }
    else s
  | none => s

/-- The look-ahead window of _should_reroute: the edges
(path[i], path[i+1]) for i from path_index up to (exclusive)
min(path_index + 3, len(path) - 1).  Truncated natural subtraction gives
the same empty window as Python's empty range when the bound is below the
start. -/
def upcoming_edges (v : Vehicle) : List Edge :=
  (List.range' v.path_index
      (min (v.path_index + 3) (v.path.length - 1) - v.path_index)).map
    (fun i => (v.path.getD i "", v.path.getD (i + 1) ""))

/-- MultiVehicleSimulator._should_reroute: with fewer than two path nodes
answer False; otherwise recommend a reroute when some upcoming edge is in
blocked_roads, or failing that when some upcoming edge has analyzer
congestion probability (passed in as prob) above 0.5. -/
def should_reroute (s : SimState) (prob : Edge → ℚ) (v : Vehicle) : Bool :=
  if v.path = [] ∨ v.path.length < 2 then false
  else
    let upcoming := upcoming_edges v
    (upcoming.any (fun e => acontains s.blocked_roads e)) ||
      (upcoming.any (fun e => prob e > 1 / 2))

/-- MultiVehicleSimulator._reroute_vehicle.  The external pathfinder.a_star
result from (current_node, goal_node) is passed in as route = (path, cost);
an empty path models the no-path result (falsy in the source).  A non-empty
path differing from the remaining tail path[path_index:] is adopted via
set_path, the reroute counter is bumped, the cursor is re-zeroed and the
vehicle is set MOVING at its full target speed.  position_on_edge is not
modified anywhere on this route. -/
def reroute_vehicle (route : List String × ℚ) (v : Vehicle) : Vehicle :=
  let new_path := route.1
  if new_path ≠ [] ∧ new_path ≠ v.path.drop v.path_index then
    let v1 := set_path v new_path route.2
    let v2 := increment_reroute v1
    { v2 with path_index := 0, target_speed := v2.speed_multiplier
              status := .moving }
  else v

/-- The per-tick, per-vehicle environment of simulation_tick that is
external to the embedded kernel state: the router result for a reroute
attempt, the analyzer congestion probabilities, the other vehicles listed
on the same edge by the occupancy map of the previous tick, the cached
pixel edge lengths, and the tick's delta time. -/
structure TickEnv where
  route : List String × ℚ
  prob : Edge → ℚ
  others : List Vehicle
  edge_lengths : List (Edge × ℚ)
  delta_time : ℚ

/-- The leader scan of pass A: over the vehicles on the same edge, the
smallest pixel gap (position difference times edge length) to a vehicle
strictly ahead, skipping the vehicle itself, if any such vehicle exists.
Note: the source loop iterates the Vehicle objects returned by
get_vehicles_on_edge yet compares them against id strings and feeds them
to get_vehicle as dict keys, so at runtime every iteration is skipped and
no leader is ever found; this embedding gives the loop its evident intent,
and every theorem below holds for an arbitrary others list - including
the always-empty result the source actually produces. -/
def min_gap_ahead (v : Vehicle) (edge_length : ℚ)
    (others : List Vehicle) : Option ℚ :=
  others.foldl
    (fun best o =>
      if o.id = v.id then best
      else if o.position_on_edge > v.position_on_edge then
        let gap := (o.position_on_edge - v.position_on_edge) * edge_length
        match best with
        | none => some gap
        | some b => if gap < b then some gap else best
      else best)
    none

/-- The deadband speed controller of pass A (the no-leader branch of
simulation_tick) against the current edge's traffic multiplier, followed
by the conservative stuck-status update: the ideal speed is
speed_multiplier * max(1/multiplier, 0.2) under congestion, full speed
otherwise; below 10 px/s the target is only raised to full speed when it
sits under 0.9 of it; otherwise the target creeps toward the ideal by 0.1
(error above 2.0) or 0.2 (error above 0.5) without crossing it, and small
errors are left alone; finally multiplier > 3 with speed < 1 forces STUCK
and a STUCK vehicle above 3 px/s goes back to MOVING. -/
def ideal_speed_of (traffic_multiplier : ℚ) (v : Vehicle) : ℚ :=
  if traffic_multiplier > 1 then
    v.speed_multiplier * max (1 / traffic_multiplier) (1 / 5)
  else v.speed_multiplier

/-- The target-speed half of the deadband controller (the if/elif ladder of
the no-leader branch). -/
def deadband_target (traffic_multiplier : ℚ) (v : Vehicle) : Vehicle :=
  let ideal_speed := ideal_speed_of traffic_multiplier v
  if v.current_speed < 10 then
    if v.target_speed < v.speed_multiplier * (9 / 10) then
      { v with target_speed := v.speed_multiplier }
    else v
  else
    let speed_diff := ideal_speed - v.target_speed
    if |speed_diff| > 2 then
      if speed_diff > 0 then
        { v with target_speed := min (v.target_speed + 1 / 10) ideal_speed }
      else
        { v with target_speed := max ideal_speed (v.target_speed - 1 / 10) }
    else if |speed_diff| > 1 / 2 then
      if speed_diff > 0 then
        { v with target_speed := min (v.target_speed + 1 / 5) ideal_speed }
      else
        { v with target_speed := max ideal_speed (v.target_speed - 1 / 5) }
    else v

def deadband_control (traffic_multiplier : ℚ) (v : Vehicle) : Vehicle :=
  let v1 := deadband_target traffic_multiplier v
  if traffic_multiplier > 3 ∧ v1.current_speed < 1 then
    { v1 with status := .stuck }
  else if v1.status = .stuck ∧ v1.current_speed > 3 then
    { v1 with status := .moving }
  else v1

/-- One vehicle's update in pass A of simulation_tick: skip arrived or
next-less vehicles; on a blocked current edge run the reroute check and
either reroute or stop dead (target speed 0, STUCK); otherwise follow the
leader on the same edge when present; otherwise apply the deadband speed
controller against the edge's traffic multiplier. -/
def pass_a_vehicle (s : SimState) (env : TickEnv) (v : Vehicle) : Vehicle :=
  if v.status = .arrived ∨ v.next_node = none then v
  else
    let n := (v.next_node).getD ""
    let edge : Edge := (v.current_node, n)
    if acontains s.blocked_roads edge then
      if should_reroute s env.prob v then reroute_vehicle env.route v
      else { v with target_speed := 0, status := .stuck }
    else
      let edge_length := agetD env.edge_lengths edge 100
      match min_gap_ahead v edge_length env.others with
      | some gap => slow_down_for_vehicle_ahead v gap 30
      | none => deadband_control (agetD s.traffic_multipliers edge 1) v

/-- One vehicle's update in pass B of simulation_tick: skip arrived or
next-less vehicles; integrate the position over the cached edge length
(default 100 px) and, when the edge end was reached, advance the path
cursor with move_to_next_node. -/
def pass_b_vehicle (env : TickEnv) (v : Vehicle) : Vehicle :=
  if v.status = .arrived ∨ v.next_node = none then v
  else
    let n := (v.next_node).getD ""
    let edge : Edge := (v.current_node, n)
    let edge_length := agetD env.edge_lengths edge 100
    let r := update_position v env.delta_time edge_length
    if r.2 then (move_to_next_node r.1).1 else r.1

/-- The per-vehicle composition of one simulation_tick: pass A then pass B.
The moved/arrived counters of the tick summary do not alter the vehicle
and are elided (simulation_tick itself never calls
mark_vehicle_arrived; only the separate move_vehicle helper does). -/
def tick_vehicle (s : SimState) (env : TickEnv) (v : Vehicle) : Vehicle :=
  pass_b_vehicle env (pass_a_vehicle s env v)

/-- A vehicle across a sequence of ticks, each tick seeing its own kernel
state and environment. -/
def run_ticks (v : Vehicle) (ticks : List (SimState × TickEnv)) : Vehicle :=
  ticks.foldl (fun w p => tick_vehicle p.1 p.2 w) v

/-- vehicle.py VehicleManager: all vehicles by id, the ids of active (not
arrived) vehicles, and the edge occupancy map. -/
structure VehicleManager where
  vehicles : List (String × Vehicle)
  active_vehicles : List String
  edge_occupancy : List (Edge × List String)
deriving DecidableEq

/-- VehicleManager.add_vehicle: register by id and add to the active set
(modelled as a duplicate-free list) unless already arrived. -/
def add_vehicle (m : VehicleManager) (v : Vehicle) : VehicleManager × String :=
  let m1 := { m with vehicles := aset m.vehicles v.id v }
  let m2 :=
    if v.status ≠ .arrived then
      { m1 with active_vehicles :=
          if v.id ∈ m1.active_vehicles then m1.active_vehicles
          else m1.active_vehicles ++ [v.id] }
    else m1
  (m2, v.id)

/-- VehicleManager.mark_vehicle_arrived: for an id in the active set, drop
it from the set and force the vehicle's status to ARRIVED. -/
def mark_vehicle_arrived (m : VehicleManager) (vehicle_id : String) :
    VehicleManager :=
  if vehicle_id ∈ m.active_vehicles then
    let m1 := { m with active_vehicles := m.active_vehicles.erase vehicle_id }
    match alookup m1.vehicles vehicle_id with
    | some v =>
      { m1 with vehicles := aset m1.vehicles vehicle_id { v with status := .arrived } }
    | none => m1
  else m

/-- VehicleManager.reset: clear all three containers and zero the
class-level Vehicle._id_counter (threaded explicitly; being class-level, the
zeroing is seen by every registry instance). -/
def vm_reset (_m : VehicleManager) (_id_counter : ℕ) : VehicleManager × ℕ :=
  (⟨[], [], []⟩, 0)

/-- MultiVehicleSimulator.spawn_vehicle with explicit start and goal nodes
and the external pathfinder.a_star result passed as route = (path, cost),
an empty path being the falsy no-path result.  With an empty graph the
method returns None before constructing a Vehicle; otherwise the Vehicle is
constructed first, consuming an id from the class-level counter, and is
registered only when a path came back. -/
def spawn_vehicle (g : Graph) (m : VehicleManager) (id_counter : ℕ)
    (vehicle_type : VehicleType) (start_node goal_node : String)
    (route : List String × ℚ) : VehicleManager × ℕ × Option Vehicle :=
  if g = [] then (m, id_counter, none)
  else
    let r := mk_vehicle vehicle_type start_node goal_node [] id_counter
    if route.1 ≠ [] then
      let veh1 := set_path r.1 route.1 route.2
      ((add_vehicle m veh1).1, r.2, some veh1)
    else (m, r.2, none)

/-- The full simulator object of MultiVehicleSimulator (graph, incident and
weight state, vehicle registry, step counter, running flag, spawn total).
The wall-clock fields and the caches built from external coordinates (edge
lengths, hotspot selection) live in TickEnv and in the drift operations. -/
structure Sim where
  graph : Graph
  st : SimState
  vehicle_manager : VehicleManager
  simulation_step : ℕ
  is_running : Bool
  total_spawned : ℕ
deriving DecidableEq

/-- MultiVehicleSimulator.__init__ state over a graph: default multipliers
on every edge, no blocks, no accidents, empty registry. -/
def mk_sim (g : Graph) : Sim :=
  { graph := g
    st := { traffic_multipliers := init_traffic_multipliers g []
            blocked_roads := []
            accidents := []
            accident_counter := 0 }
    vehicle_manager := ⟨[], [], []⟩
    simulation_step := 0
    is_running := false
    total_spawned := 0 }

/-- MultiVehicleSimulator.reset_simulation: reset the vehicle manager
(which also zeroes the class-level id counter, threaded explicitly), re-run
_initialize_traffic_multipliers over the graph edges, and zero the step,
the running flag and the spawn total.  The accident book, the accident
counter and the blocked-road map are not touched. -/
def reset_simulation (sim : Sim) (id_counter : ℕ) : Sim × ℕ :=
  let r := vm_reset sim.vehicle_manager id_counter
  ({ sim with
      vehicle_manager := r.1
      st := { sim.st with traffic_multipliers :=
                init_traffic_multipliers sim.graph sim.st.traffic_multipliers }
      simulation_step := 0
      is_running := false
      total_spawned := 0 }, r.2)

/-- The multiplier-mutating kernel operations that can run between a block
and an unblock: incident creation (edge and random draws explicit),
incident resolution, further blocks and unblocks, and the per-edge hotspot
drift of simulation_tick. -/
inductive SimOp
  | createAcc (from_node to_node : String) (severity : Severity)
      (duration now : ℚ)
  | resolveAcc (accident_id : String)
  | blockOp (from_node to_node reason : String)
  | unblockOp (from_node to_node : String)
  | driftOp (from_node to_node : String) (congestion_factor u : ℚ)
deriving DecidableEq

/-- Run one kernel operation for its state effect (return values and raised
errors leave the state exactly as the source leaves the object). -/
def apply_sim_op (s : SimState) : SimOp → SimState
  | .createAcc u t sev dur now => (create_accident s u t sev dur now).1
  | .resolveAcc aid => (resolve_accident s aid).1
  | .blockOp u t r => (block_road s u t r).1
  | .unblockOp u t => (unblock_road s u t).1
  | .driftOp u t cf uu => hotspot_drift s (u, t) cf uu

/-- An operation avoids the edge e when its explicitly targeted edge
differs from e (resolution targets an accident id; which edge it touches is
governed by the accident book). -/
def op_avoids (e : Edge) : SimOp → Bool
  | .createAcc u t _ _ _ => (u, t) ≠ e
  | .resolveAcc _ => true
  | .blockOp u t _ => (u, t) ≠ e
  | .unblockOp u t => (u, t) ≠ e
  | .driftOp u t _ _ => (u, t) ≠ e

/-- The three public cursor operations of one agent: set_path,
move_to_next_node, and the status effect of
VehicleManager.mark_vehicle_arrived on that (active) agent. -/
inductive AgentOp
  | setPathOp (path : List String) (cost : ℚ)
  | advanceOp
  | markArrivedOp
deriving DecidableEq

/-- Apply one cursor operation. -/
def apply_agent_op (v : Vehicle) : AgentOp → Vehicle
  | .setPathOp p c => set_path v p c
  | .advanceOp => (move_to_next_node v).1
  | .markArrivedOp => { v with status := .arrived }

/-- Apply a sequence of cursor operations, left to right. -/
def apply_agent_ops (v : Vehicle) (ops : List AgentOp) : Vehicle :=
  ops.foldl apply_agent_op v

/-- One spawn request: the kind, the endpoints, and the external router
result it will receive. -/
structure SpawnReq where
  vehicle_type : VehicleType
  start_node : String
  goal_node : String
  route : List String × ℚ
deriving DecidableEq

/-- A sequence of spawn_vehicle calls threading the registry and the
class-level id counter. -/
def spawn_fold (g : Graph) (m : VehicleManager) (id_counter : ℕ) :
    List SpawnReq → VehicleManager × ℕ
  | [] => (m, id_counter)
  | r :: rest =>
    let s := spawn_vehicle g m id_counter r.vehicle_type r.start_node
      r.goal_node r.route
    spawn_fold g s.1 s.2.1 rest

/-- The id-counter values consumed by a sequence of spawn requests, in
order (none is consumed when the empty-graph guard fires first). -/
def spawn_drawn (g : Graph) (m : VehicleManager) (id_counter : ℕ) :
    List SpawnReq → List ℕ
  | [] => []
  | r :: rest =>
    let s := spawn_vehicle g m id_counter r.vehicle_type r.start_node
      r.goal_node r.route
    (if s.2.1 ≠ id_counter then [s.2.1] else []) ++
      spawn_drawn g s.1 s.2.1 rest

/-- The ids of the vehicles actually registered by a sequence of spawn
requests, in order. -/
def spawn_registered (g : Graph) (m : VehicleManager) (id_counter : ℕ) :
    List SpawnReq → List String
  | [] => []
  | r :: rest =>
    let s := spawn_vehicle g m id_counter r.vehicle_type r.start_node
      r.goal_node r.route
    (match s.2.2 with
     | some v => [v.id]
     | none => []) ++ spawn_registered g s.1 s.2.1 rest

/-- A concrete MOVING car used to instantiate hypotheses of the general
theorems: fresh from the constructor, on path A, B with the cursor at A. -/
def sample_car : Vehicle :=
  set_path (mk_vehicle .car "A" "D" [] 0).1 ["A", "B"] 1

/-- A small incident-free kernel state over the single edge (X, Y) at the
default multiplier, used to instantiate the incident round-trip. -/
def xy_state : SimState :=
  { traffic_multipliers := [(("X", "Y"), 1)]
    blocked_roads := []
    accidents := []
    accident_counter := 0 }

/-- A car halfway along edge (A, B) of the remaining path A, B, D, about to
receive a reroute. -/
def midway_car : Vehicle :=
  { (set_path (mk_vehicle .car "A" "D" [] 0).1 ["A", "B", "D"] 2) with
      position_on_edge := 1 / 2 }

/-- The alternate route A, C, D (cost 4) a router can return for the
midway car. -/
def alt_route : List String × ℚ := (["A", "C", "D"], 4)

/-- The four-node diamond graph of spec scenario C: A to B to D plus
A to C to D. -/
def diamond_graph : Graph :=
  [("A", ["B", "C"]), ("B", ["D"]), ("C", ["D"]), ("D", [])]

/-- The fresh kernel state over the diamond graph (all multipliers at the
default, nothing blocked, no accidents). -/
def diamond_state : SimState := (mk_sim diamond_graph).st

/-- The diamond state carrying the manual block on (B, D) of spec
scenario C. -/
def bd_blocked_state : SimState :=
  (block_road diamond_state "B" "D" "road_work").1

/-- The scenario-C car on path A, B, D with the cursor at A: its current
edge (A, B) is open, the blocked (B, D) sits one edge ahead in the
look-ahead window. -/
def abd_car : Vehicle :=
  set_path (mk_vehicle .car "A" "D" [] 0).1 ["A", "B", "D"] 2

/-- The tick environment of scenario C: the router offers A, C, D, the
analyzer reports zero congestion everywhere, no other vehicle is on the
edge, no cached edge lengths. -/
def scenario_env : TickEnv :=
  { route := alt_route
    prob := fun _ => 0
    others := []
    edge_lengths := []
    delta_time := 1 / 10 }

/-- A car standing directly on the blocked edge (B, D): path B, D with the
cursor at B. -/
def bd_car : Vehicle :=
  set_path (mk_vehicle .car "B" "D" [] 0).1 ["B", "D"] 1

/-- A simulator on the diamond graph carrying one manual block on (A, B),
one accident on (B, D), and some progress of the counters, used to probe
reset_simulation. -/
def busy_sim : Sim :=
  let s0 := mk_sim diamond_graph
  let s1 := { s0 with st := (block_road s0.st "A" "B" "crash").1 }
  let s2 := { s1 with st := (create_accident s1.st "B" "D" .minor 30 0).1 }
  { s2 with simulation_step := 9, total_spawned := 3, is_running := true }

/-- A sequence of kernel operations that never targets the edge (B, D):
an accident created on (A, B), drift on (C, D), resolution of that
accident, and a block/unblock pair on (A, C). -/
def c2_ops : List SimOp :=
  [SimOp.createAcc "A" "B" .minor 30 0,
   SimOp.driftOp "C" "D" 1 1,
   SimOp.resolveAcc "accident_1",
   SimOp.blockOp "A" "C" "police",
   SimOp.unblockOp "A" "C"]

/-- The C2 preservation invariant: the edge e is recorded as blocked, its
multiplier is exactly 100, and no accident in the book lies on e. -/
def blocked_inv (e : Edge) (s : SimState) : Prop :=
  acontains s.blocked_roads e = true ∧
  alookup s.traffic_multipliers e = some 100 ∧
  ∀ p ∈ s.accidents, ((p.2.from_node, p.2.to_node) : Edge) ≠ e

/-- The cursor/status invariant of C9, stated over the integers exactly as
the spec writes it: ARRIVED iff path_index = len(path) - 1, and off
ARRIVED the next node is defined. -/
def cursor_inv (v : Vehicle) : Prop :=
  (v.status = VehicleStatus.arrived ↔
    (v.path_index : ℤ) = (v.path.length : ℤ) - 1) ∧
  (v.status ≠ VehicleStatus.arrived → v.next_node ≠ none)

instance (v : Vehicle) : Decidable (cursor_inv v) := by
  unfold cursor_inv; infer_instance

/-- The inductive strengthening of cursor_inv: the cursor stays inside the
path, and off ARRIVED it is strictly inside with next_node =
path[path_index + 1]. -/
def cursor_inv_strong (v : Vehicle) : Prop :=
  v.path_index + 1 ≤ v.path.length ∧
  (v.status = VehicleStatus.arrived ↔ v.path_index + 1 = v.path.length) ∧
  (v.status ≠ VehicleStatus.arrived →
    v.path_index + 2 ≤ v.path.length ∧
    v.next_node = some (v.path.getD (v.path_index + 1) ""))

/-- The kinematic invariant of C8, together with the auxiliary
target-speed and constant-field facts that make it inductive across
ticks. -/
def good_vehicle (v : Vehicle) : Prop :=
  0 ≤ v.position_on_edge ∧ v.position_on_edge ≤ 1 ∧
  0 ≤ v.current_speed ∧ v.current_speed ≤ v.speed_multiplier ∧
  0 ≤ v.target_speed ∧ v.target_speed ≤ v.speed_multiplier ∧
  v.speed_multiplier = SPEED_MULTIPLIERS v.vtype ∧
  0 ≤ v.acceleration

/-- The facts the wall clock and the coordinate cache guarantee about a
tick environment: delta_time = min(now - last, 0.2) is nonnegative under a
monotone clock, and every cached edge length is max(50, euclidean * 110),
hence positive. -/
def env_ok (e : TickEnv) : Prop :=
  0 ≤ e.delta_time ∧ ∀ p ∈ e.edge_lengths, 0 < p.2

/-- Three spawn requests of which the second fails pathfinding: the
registered agents then carry the non-consecutive suffixes 1 and 3. -/
def c10_reqs : List SpawnReq :=
  [{ vehicle_type := .car, start_node := "A", goal_node := "D"
     route := (["A", "B", "D"], 2) },
   { vehicle_type := .car, start_node := "A", goal_node := "D"
     route := ([], 0) },
   { vehicle_type := .car, start_node := "A", goal_node := "D"
     route := (["A", "C", "D"], 4) }]

/-- The restriction under which the kernel itself drives the cursor
operations: set_path only receives the two-node-or-longer paths the router
returns for distinct endpoints, and mark_vehicle_arrived only runs once
the agent has itself become ARRIVED (as simulation_tick pass B does). -/
def agent_op_ok (v : Vehicle) : AgentOp → Bool
  | .setPathOp p _ => decide (2 ≤ p.length)
  | .advanceOp => true
  | .markArrivedOp => decide (v.status = VehicleStatus.arrived)

/-- The chained restriction along a whole operation sequence. -/
def agent_ops_ok (v : Vehicle) : List AgentOp → Bool
  | [] => true
  | op :: rest => agent_op_ok v op && agent_ops_ok (apply_agent_op v op) rest

theorem alookup_aset_self {α β : Type} [DecidableEq α]
    (m : List (α × β)) (k : α) (v : β) : alookup (aset m k v) k = some v := by
  induction m with
  | nil => simp [aset, alookup]
  | cons p rest ih =>
    by_cases h : p.1 = k
    · simp [aset, h, alookup]
    · simp [aset, h, alookup, ih]

theorem alookup_aset_ne {α β : Type} [DecidableEq α]
    (m : List (α × β)) (k k' : α) (v : β) (h : k' ≠ k) :
    alookup (aset m k v) k' = alookup m k' := by
  have h2 : k ≠ k' := Ne.symm h
  induction m with
  | nil => simp [aset, alookup, h2]
  | cons p rest ih =>
    by_cases hp : p.1 = k
    · simp [aset, hp, alookup, h2]
    · simp only [aset, if_neg hp]
      by_cases hp2 : p.1 = k'
      · simp [alookup, hp2]
      · simp [alookup, hp2, ih]

theorem aupdate_some_lookup {α β : Type} [DecidableEq α]
    (m m2 : List (α × β)) (k : α) (f : β → β)
    (h : aupdate m k f = some m2) :
    ∃ b, alookup m k = some b ∧ alookup m2 k = some (f b) := by
  induction m generalizing m2 with
  | nil => simp [aupdate] at h
  | cons p rest ih =>
    by_cases hp : p.1 = k
    · refine ⟨p.2, by simp [alookup, hp], ?_⟩
      simp only [aupdate, if_pos hp] at h
      cases h
      simp [alookup, hp]
    · simp only [aupdate, if_neg hp, Option.map_eq_some'] at h
      obtain ⟨m3, hm3, rfl⟩ := h
      obtain ⟨b, hb1, hb2⟩ := ih m3 hm3
      exact ⟨b, by simp [alookup, hp, hb1], by simp [alookup, hp, hb2]⟩

theorem aupdate_some_lookup_ne {α β : Type} [DecidableEq α]
    (m m2 : List (α × β)) (k k' : α) (f : β → β)
    (h : aupdate m k f = some m2) (hne : k' ≠ k) :
    alookup m2 k' = alookup m k' := by
  induction m generalizing m2 with
  | nil => simp [aupdate] at h
  | cons p rest ih =>
    by_cases hp : p.1 = k
    · simp only [aupdate, if_pos hp] at h
      cases h
      have h2 : k ≠ k' := Ne.symm hne
      simp [alookup, hp, h2]
    · simp only [aupdate, if_neg hp, Option.map_eq_some'] at h
      obtain ⟨m3, hm3, rfl⟩ := h
      by_cases hp2 : p.1 = k'
      · simp [alookup, hp2]
      · simp [alookup, hp2, ih m3 hm3]

theorem aupdate_of_lookup_some {α β : Type} [DecidableEq α]
    (m : List (α × β)) (k : α) (f : β → β) (b : β)
    (h : alookup m k = some b) : ∃ m2, aupdate m k f = some m2 := by
  induction m with
  | nil => simp [alookup] at h
  | cons p rest ih =>
    by_cases hp : p.1 = k
    · exact ⟨(p.1, f p.2) :: rest, by simp [aupdate, hp]⟩
    · simp only [alookup, if_neg hp] at h
      obtain ⟨m3, hm3⟩ := ih h
      exact ⟨(p.1, p.2) :: m3, by simp [aupdate, hp, hm3]⟩

theorem alookup_aerase_ne {α β : Type} [DecidableEq α]
    (m : List (α × β)) (k k' : α) (h : k' ≠ k) :
    alookup (aerase m k) k' = alookup m k' := by
  have h2 : k ≠ k' := Ne.symm h
  induction m with
  | nil => simp [aerase]
  | cons p rest ih =>
    by_cases hp : p.1 = k
    · simp [aerase, hp, alookup, h2]
    · by_cases hp2 : p.1 = k'
      · simp [aerase, hp, alookup, hp2, h]
      · simp [aerase, hp, alookup, hp2, ih]

/-- C7: update_position(dt, L) is a no-op returning False when the status
is neither MOVING nor STUCK; otherwise it first slews current_speed toward
target_speed by at most acceleration * dt, never crossing target_speed,
then advances position_on_edge by current_speed * dt / L (with the slewed
speed), clips the position at 1.0, and returns True exactly when the clip
fired. -/
theorem c7_update_position_spec (v : Vehicle) (dt L : ℚ)
    (hdt : 0 ≤ dt) (hacc : 0 ≤ v.acceleration) :
    (v.status ≠ .moving ∧ v.status ≠ .stuck →
      update_position v dt L = (v, false)) ∧
    ((v.status = .moving ∨ v.status = .stuck) →
      (|(update_position v dt L).1.current_speed - v.current_speed| ≤
        v.acceleration * dt) ∧
      (v.current_speed ≤ v.target_speed →
        v.current_speed ≤ (update_position v dt L).1.current_speed ∧
        (update_position v dt L).1.current_speed ≤ v.target_speed) ∧
      (v.target_speed ≤ v.current_speed →
        v.target_speed ≤ (update_position v dt L).1.current_speed ∧
        (update_position v dt L).1.current_speed ≤ v.current_speed) ∧
      (v.position_on_edge + (update_position v dt L).1.current_speed * dt / L ≥ 1 →
        (update_position v dt L).1.position_on_edge = 1 ∧
        (update_position v dt L).2 = true) ∧
      (v.position_on_edge + (update_position v dt L).1.current_speed * dt / L < 1 →
        (update_position v dt L).1.position_on_edge =
          v.position_on_edge + (update_position v dt L).1.current_speed * dt / L ∧
        (update_position v dt L).2 = false)) := by
  refine ⟨fun h => by simp only [update_position, if_pos h], fun hs => ?_⟩
  have hcond : ¬(v.status ≠ VehicleStatus.moving ∧ v.status ≠ VehicleStatus.stuck) := by
    rcases hs with h | h <;> simp [h]
  have had : 0 ≤ v.acceleration * dt := mul_nonneg hacc hdt
  simp only [update_position, if_neg hcond]
  by_cases h1 : |v.target_speed - v.current_speed| < v.acceleration * dt
  · simp only [if_pos h1, ge_iff_le]
    by_cases h3 : (1 : ℚ) ≤ v.position_on_edge + v.target_speed * dt / L
    · simp only [if_pos h3]

      exact ⟨le_of_lt h1, fun h => ⟨h, le_refl _⟩, fun h => ⟨le_refl _, h⟩,
        fun _ => by simp, fun hc => absurd h3 (not_le.mpr hc)⟩
    · simp only [if_neg h3]

      exact ⟨le_of_lt h1, fun h => ⟨h, le_refl _⟩, fun h => ⟨le_refl _, h⟩,
        fun hcc => absurd hcc h3, fun _ => by simp⟩
  · have h1' : v.acceleration * dt ≤ |v.target_speed - v.current_speed| := not_lt.mp h1
    simp only [if_neg h1, ge_iff_le]
    by_cases h2 : v.target_speed - v.current_speed > 0
    · have habs : |v.target_speed - v.current_speed| = v.target_speed - v.current_speed :=
        abs_of_pos h2
      have hup : v.current_speed + v.acceleration * dt - v.current_speed =
          v.acceleration * dt := by ring
      simp only [if_pos h2]
      by_cases h3 : (1 : ℚ) ≤
          v.position_on_edge + (v.current_speed + v.acceleration * dt) * dt / L
      · simp only [if_pos h3]

        refine ⟨?_, fun h => ⟨by linarith, by linarith⟩,
          fun h => ⟨by linarith, by linarith⟩,
          fun _ => by simp, fun hc => absurd h3 (not_le.mpr hc)⟩
        rw [hup, abs_of_nonneg had]
      · simp only [if_neg h3]

        refine ⟨?_, fun h => ⟨by linarith, by linarith⟩,
          fun h => ⟨by linarith, by linarith⟩,
          fun hcc => absurd hcc h3, fun _ => by simp⟩
        rw [hup, abs_of_nonneg had]
    · have h2' : v.target_speed - v.current_speed ≤ 0 := not_lt.mp h2
      have habs : |v.target_speed - v.current_speed| =
          -(v.target_speed - v.current_speed) := abs_of_nonpos h2'
      have hup : v.current_speed - v.acceleration * dt - v.current_speed =
          -(v.acceleration * dt) := by ring
      simp only [if_neg h2]
      by_cases h3 : (1 : ℚ) ≤
          v.position_on_edge + (v.current_speed - v.acceleration * dt) * dt / L
      · simp only [if_pos h3]

        refine ⟨?_, fun h => ⟨by linarith, by linarith⟩,
          fun h => ⟨by linarith, by linarith⟩,
          fun _ => by simp, fun hc => absurd h3 (not_le.mpr hc)⟩
        rw [hup, abs_neg, abs_of_nonneg had]
      · simp only [if_neg h3]

        refine ⟨?_, fun h => ⟨by linarith, by linarith⟩,
          fun h => ⟨by linarith, by linarith⟩,
          fun hcc => absurd hcc h3, fun _ => by simp⟩
        rw [hup, abs_neg, abs_of_nonneg had]


/-- Witness for c7_update_position_spec: the sample car (MOVING, speed 0,
target 30) with dt = 1/10 s on a 100 px edge. -/
theorem c7_update_position_spec_witness :
    (sample_car.status ≠ .moving ∧ sample_car.status ≠ .stuck →
      update_position sample_car (1 / 10) 100 = (sample_car, false)) ∧
    ((sample_car.status = .moving ∨ sample_car.status = .stuck) →
      (|(update_position sample_car (1 / 10) 100).1.current_speed -
          sample_car.current_speed| ≤ sample_car.acceleration * (1 / 10)) ∧
      (sample_car.current_speed ≤ sample_car.target_speed →
        sample_car.current_speed ≤
          (update_position sample_car (1 / 10) 100).1.current_speed ∧
        (update_position sample_car (1 / 10) 100).1.current_speed ≤
          sample_car.target_speed) ∧
      (sample_car.target_speed ≤ sample_car.current_speed →
        sample_car.target_speed ≤
          (update_position sample_car (1 / 10) 100).1.current_speed ∧
        (update_position sample_car (1 / 10) 100).1.current_speed ≤
          sample_car.current_speed) ∧
      (sample_car.position_on_edge +
          (update_position sample_car (1 / 10) 100).1.current_speed * (1 / 10) / 100 ≥ 1 →
        (update_position sample_car (1 / 10) 100).1.position_on_edge = 1 ∧
        (update_position sample_car (1 / 10) 100).2 = true) ∧
      (sample_car.position_on_edge +
          (update_position sample_car (1 / 10) 100).1.current_speed * (1 / 10) / 100 < 1 →
        (update_position sample_car (1 / 10) 100).1.position_on_edge =
          sample_car.position_on_edge +
            (update_position sample_car (1 / 10) 100).1.current_speed * (1 / 10) / 100 ∧
        (update_position sample_car (1 / 10) 100).2 = false)) :=
  c7_update_position_spec sample_car (1 / 10) 100 (by norm_num)
    (by norm_num [sample_car, set_path, mk_vehicle])

theorem severity_multiplier_pos (sev : Severity) :
    0 < severity_multiplier sev := by
  cases sev <;> norm_num [severity_multiplier]

/-- C5: for every edge with multiplier m and every severity, creating an
incident of that severity on the edge and then resolving that same
incident, with no other mutation of the edge's multiplier in between,
first multiplies the multiplier by the fixed severity factor and then
restores exactly m (exact inverse, no quantization, over the exact
rationals embedding the Python floats). -/
theorem c5_incident_roundtrip (s : SimState) (u t : String) (m : ℚ)
    (sev : Severity) (dur now : ℚ)
    (hm : alookup s.traffic_multipliers (u, t) = some m) :
    ∃ acc : Accident,
      (create_accident s u t sev dur now).2 = Except.ok acc ∧
      alookup (create_accident s u t sev dur now).1.traffic_multipliers
          (u, t) = some (m * severity_multiplier sev) ∧
      (resolve_accident (create_accident s u t sev dur now).1 acc.aid).2 =
        Except.ok true ∧
      alookup (resolve_accident (create_accident s u t sev dur now).1
          acc.aid).1.traffic_multipliers (u, t) = some m := by
  have hf : severity_multiplier sev ≠ 0 := ne_of_gt (severity_multiplier_pos sev)
  obtain ⟨m1, hm1⟩ := aupdate_of_lookup_some s.traffic_multipliers (u, t)
    (fun x => x * severity_multiplier sev) m hm
  obtain ⟨b, hb1, hb2⟩ := aupdate_some_lookup _ _ _ _ hm1
  rw [hm] at hb1
  injection hb1 with hb1
  subst hb1
  have hcr : create_accident s u t sev dur now =
      ({ traffic_multipliers := m1
         blocked_roads := s.blocked_roads
         accidents := aset s.accidents
           ("accident_" ++ toString (s.accident_counter + 1))
           { aid := "accident_" ++ toString (s.accident_counter + 1)
             from_node := u, to_node := t, severity := sev
             created_at := now, duration := dur }
         accident_counter := s.accident_counter + 1 },
       Except.ok
         { aid := "accident_" ++ toString (s.accident_counter + 1)
           from_node := u, to_node := t, severity := sev
           created_at := now, duration := dur }) := by
    simp only [create_accident, hm1]
  rw [hcr]
  refine ⟨_, rfl, hb2, ?_⟩
  obtain ⟨m2, hm2⟩ := aupdate_of_lookup_some m1 (u, t)
    (fun x => x / severity_multiplier sev) _ hb2
  obtain ⟨b2, hb21, hb22⟩ := aupdate_some_lookup _ _ _ _ hm2
  rw [hb2] at hb21
  injection hb21 with hb21
  subst hb21
  have hres : resolve_accident
      ({ traffic_multipliers := m1
         blocked_roads := s.blocked_roads
         accidents := aset s.accidents
           ("accident_" ++ toString (s.accident_counter + 1))
           { aid := "accident_" ++ toString (s.accident_counter + 1)
             from_node := u, to_node := t, severity := sev
             created_at := now, duration := dur }
         accident_counter := s.accident_counter + 1 } : SimState)
      ("accident_" ++ toString (s.accident_counter + 1)) =
      ({ traffic_multipliers := m2
         blocked_roads := s.blocked_roads
         accidents := aerase
           (aset s.accidents ("accident_" ++ toString (s.accident_counter + 1))
             { aid := "accident_" ++ toString (s.accident_counter + 1)
               from_node := u, to_node := t, severity := sev
               created_at := now, duration := dur })
           ("accident_" ++ toString (s.accident_counter + 1))
         accident_counter := s.accident_counter + 1 },
       Except.ok true) := by
    simp only [resolve_accident, alookup_aset_self, hm2]
  rw [hres]
  refine ⟨rfl, ?_⟩
  rw [hb22]
  congr 1
  exact mul_div_cancel_right₀ m hf

/-- Witness for c5_incident_roundtrip: edge (X, Y) at multiplier 1.0, one
moderate accident; the multiplier goes to 1 * 4 = 4 and resolution restores
exactly 1. -/
theorem c5_incident_roundtrip_witness :
    (1 : ℚ) * severity_multiplier .moderate = 4 ∧
    alookup xy_state.traffic_multipliers ("X", "Y") = some 1 ∧
    ∃ acc : Accident,
      (create_accident xy_state "X" "Y" .moderate 60 0).2 = Except.ok acc ∧
      alookup (create_accident xy_state "X" "Y" .moderate 60 0).1.traffic_multipliers
          ("X", "Y") = some (1 * severity_multiplier .moderate) ∧
      (resolve_accident (create_accident xy_state "X" "Y" .moderate 60 0).1
          acc.aid).2 = Except.ok true ∧
      alookup (resolve_accident (create_accident xy_state "X" "Y" .moderate 60 0).1
          acc.aid).1.traffic_multipliers ("X", "Y") = some 1 :=
  ⟨by norm_num [severity_multiplier], rfl,
    c5_incident_roundtrip xy_state "X" "Y" 1 .moderate 60 0 rfl⟩

/-- C6, code evaluated at the failing input: create_accident with the
explicit edge (X, Z), absent from the multiplier table, raises KeyError
(modelled as Except.error) instead of reporting failure through its return
value; the other commands named by the claim do report failure values:
resolve of an unknown id, block of an unknown edge, unblock of an
unblocked edge, and spawn on an empty graph. -/
theorem c6_failure_reporting :
    (create_accident xy_state "X" "Z" .minor 30 0).2 = Except.error "KeyError" ∧
    (resolve_accident xy_state "nope").2 = Except.ok false ∧
    (block_road xy_state "X" "Z" "work").2 = false ∧
    (unblock_road xy_state "X" "Y").2 = false ∧
    (spawn_vehicle [] ⟨[], [], []⟩ 0 .car "A" "B" (["A", "B"], 1)).2.2 = none := by
  refine ⟨?_, ?_, ?_, ?_, ?_⟩ <;> rfl

/-- C3, amended: when the router returns a non-empty path differing from
the remaining tail path[path_index:], the vehicle afterward has path equal
to the new path, path_index 0, next = path[1] when the new path has at
least two nodes, reroute_count incremented by exactly one, target_speed
equal to its kind's max speed, status MOVING, and position_on_edge
RETAINED (not reset to 0, which the source never does on this route); when
the router returns no path or the same tail, the vehicle is unchanged. -/
theorem c3_reroute_vehicle_spec (v : Vehicle) (route : List String × ℚ) :
    (route.1 ≠ [] → route.1 ≠ v.path.drop v.path_index →
      (reroute_vehicle route v).path = route.1 ∧
      (reroute_vehicle route v).path_index = 0 ∧
      (2 ≤ route.1.length →
        (reroute_vehicle route v).next_node = some (route.1.getD 1 "")) ∧
      (reroute_vehicle route v).reroute_count = v.reroute_count + 1 ∧
      (reroute_vehicle route v).target_speed = v.speed_multiplier ∧
      (reroute_vehicle route v).status = VehicleStatus.moving ∧
      (reroute_vehicle route v).position_on_edge = v.position_on_edge) ∧
    (route.1 = [] ∨ route.1 = v.path.drop v.path_index →
      reroute_vehicle route v = v) := by
  constructor
  · intro h1 h2
    have hc : route.1 ≠ [] ∧ route.1 ≠ v.path.drop v.path_index := ⟨h1, h2⟩
    by_cases hl : route.1.length > 1
    · refine ⟨?_, ?_, fun _ => ?_, ?_, ?_, ?_, ?_⟩ <;>
        simp [reroute_vehicle, if_pos hc, set_path, hl, increment_reroute]
    · refine ⟨?_, ?_, fun h => absurd h (by omega), ?_, ?_, ?_, ?_⟩ <;>
        simp [reroute_vehicle, if_pos hc, set_path, hl, increment_reroute]
  · intro h
    have hc : ¬(route.1 ≠ [] ∧ route.1 ≠ v.path.drop v.path_index) := by
      rcases h with h | h <;> simp [h]
    simp [reroute_vehicle, hc]

/-- Counterexample to C3 as stated: the midway car (position_on_edge = 1/2)
adopts the alternate route, and its position_on_edge stays 1/2 instead of
being reset to 0. -/
theorem c3_counterexample :
    alt_route.1 ≠ [] ∧
    alt_route.1 ≠ midway_car.path.drop midway_car.path_index ∧
    (reroute_vehicle alt_route midway_car).position_on_edge = 1 / 2 ∧
    ¬(reroute_vehicle alt_route midway_car).position_on_edge = 0 := by
  have hpos : (reroute_vehicle alt_route midway_car).position_on_edge = 1 / 2 := rfl
  refine ⟨by decide, by decide, hpos, ?_⟩
  rw [hpos]
  norm_num

/-- Witness for c3_reroute_vehicle_spec: the midway car adopting the
alternate route A, C, D. -/
theorem c3_reroute_vehicle_spec_witness :
    (reroute_vehicle alt_route midway_car).path = alt_route.1 ∧
    (reroute_vehicle alt_route midway_car).path_index = 0 ∧
    (reroute_vehicle alt_route midway_car).next_node =
      some (alt_route.1.getD 1 "") ∧
    (reroute_vehicle alt_route midway_car).reroute_count =
      midway_car.reroute_count + 1 ∧
    (reroute_vehicle alt_route midway_car).target_speed =
      midway_car.speed_multiplier ∧
    (reroute_vehicle alt_route midway_car).status = VehicleStatus.moving ∧
    (reroute_vehicle alt_route midway_car).position_on_edge =
      midway_car.position_on_edge := by
  obtain ⟨h, _⟩ := c3_reroute_vehicle_spec midway_car alt_route
  obtain ⟨h1, h2, h3, h4, h5, h6, h7⟩ := h (by decide) (by decide)
  exact ⟨h1, h2, h3 (by decide), h4, h5, h6, h7⟩

theorem alookup_fold_aset_notmem {α β : Type} [DecidableEq α]
    (l : List α) (m : List (α × β)) (d : β) (e : α) (he : e ∉ l) :
    alookup (l.foldl (fun acc k => aset acc k d) m) e = alookup m e := by
  induction l generalizing m with
  | nil => rfl
  | cons x rest ih =>
    have hne : e ≠ x := fun h => he (h ▸ List.mem_cons_self x rest)
    rw [List.foldl_cons, ih _ (fun h => he (List.mem_cons_of_mem x h)),
      alookup_aset_ne _ _ _ _ hne]

theorem alookup_fold_aset_mem {α β : Type} [DecidableEq α]
    (l : List α) (m : List (α × β)) (d : β) (e : α) (he : e ∈ l) :
    alookup (l.foldl (fun acc k => aset acc k d) m) e = some d := by
  induction l generalizing m with
  | nil => cases he
  | cons x rest ih =>
    rw [List.foldl_cons]
    by_cases hx : e ∈ rest
    · exact ih _ hx
    · have hex : e = x := by
        rcases List.mem_cons.mp he with h | h
        · exact h
        · exact absurd h hx
      subst hex
      rw [alookup_fold_aset_notmem rest _ d e hx, alookup_aset_self]

/-- C4, amended: reset_simulation zeroes the class-level vehicle id
counter, the step counter, the running flag and the spawn total, empties
the registry (vehicles, active set, edge occupancy), and resets every
graph edge's multiplier to the default 1.0; but it does NOT clear the
incident book, the accident id counter, or the block set - they keep
their previous contents. -/
theorem c4_reset_spec (sim : Sim) (idc : ℕ) :
    (reset_simulation sim idc).2 = 0 ∧
    (reset_simulation sim idc).1.vehicle_manager = ⟨[], [], []⟩ ∧
    (reset_simulation sim idc).1.simulation_step = 0 ∧
    (reset_simulation sim idc).1.is_running = false ∧
    (reset_simulation sim idc).1.total_spawned = 0 ∧
    (∀ e ∈ graph_edges sim.graph,
      alookup (reset_simulation sim idc).1.st.traffic_multipliers e =
        some DEFAULT_TRAFFIC_MULTIPLIER) ∧
    (reset_simulation sim idc).1.st.accidents = sim.st.accidents ∧
    (reset_simulation sim idc).1.st.accident_counter =
      sim.st.accident_counter ∧
    (reset_simulation sim idc).1.st.blocked_roads = sim.st.blocked_roads := by
  refine ⟨rfl, rfl, rfl, rfl, rfl, ?_, rfl, rfl, rfl⟩
  intro e he
  simp only [reset_simulation, vm_reset, init_traffic_multipliers]
  exact alookup_fold_aset_mem _ _ _ e he

/-- Counterexample to C4 as stated: after reset_simulation of the busy
simulator, the block set and the incident book are not empty and the
accident counter is not zero. -/
theorem c4_counterexample :
    (reset_simulation busy_sim 7).1.st.blocked_roads ≠ [] ∧
    (reset_simulation busy_sim 7).1.st.accidents ≠ [] ∧
    (reset_simulation busy_sim 7).1.st.accident_counter ≠ 0 := by
  refine ⟨?_, ?_, ?_⟩ <;> decide

/-- Witness for c4_reset_spec: the busy simulator with id counter 7, the
multiplier conjunct instantiated at the graph edge (A, B). -/
theorem c4_reset_spec_witness :
    (reset_simulation busy_sim 7).2 = 0 ∧
    (reset_simulation busy_sim 7).1.vehicle_manager = ⟨[], [], []⟩ ∧
    (reset_simulation busy_sim 7).1.simulation_step = 0 ∧
    (reset_simulation busy_sim 7).1.is_running = false ∧
    (reset_simulation busy_sim 7).1.total_spawned = 0 ∧
    alookup (reset_simulation busy_sim 7).1.st.traffic_multipliers ("A", "B") =
      some DEFAULT_TRAFFIC_MULTIPLIER ∧
    (reset_simulation busy_sim 7).1.st.accidents = busy_sim.st.accidents ∧
    (reset_simulation busy_sim 7).1.st.accident_counter =
      busy_sim.st.accident_counter ∧
    (reset_simulation busy_sim 7).1.st.blocked_roads =
      busy_sim.st.blocked_roads := by
  obtain ⟨h1, h2, h3, h4, h5, h6, h7, h8, h9⟩ := c4_reset_spec busy_sim 7
  exact ⟨h1, h2, h3, h4, h5, h6 ("A", "B") (by decide), h7, h8, h9⟩

theorem alookup_mem {α β : Type} [DecidableEq α]
    (m : List (α × β)) (k : α) (b : β) (h : alookup m k = some b) :
    (k, b) ∈ m := by
  induction m with
  | nil => simp [alookup] at h
  | cons p rest ih =>
    by_cases hp : p.1 = k
    · simp only [alookup, if_pos hp] at h
      injection h with h
      subst h
      exact List.mem_cons.mpr (Or.inl (by rw [← hp]))
    · simp only [alookup, if_neg hp] at h
      exact List.mem_cons_of_mem _ (ih h)

theorem mem_aset {α β : Type} [DecidableEq α]
    (m : List (α × β)) (k : α) (v : β) (p : α × β) (h : p ∈ aset m k v) :
    p = (k, v) ∨ p ∈ m := by
  induction m with
  | nil => simpa [aset] using h
  | cons q rest ih =>
    by_cases hq : q.1 = k
    · simp only [aset, if_pos hq] at h
      rcases List.mem_cons.mp h with h | h
      · exact Or.inl h
      · exact Or.inr (List.mem_cons_of_mem _ h)
    · simp only [aset, if_neg hq] at h
      rcases List.mem_cons.mp h with h | h
      · exact Or.inr (h ▸ List.mem_cons_self _ _)
      · rcases ih h with h | h
        · exact Or.inl h
        · exact Or.inr (List.mem_cons_of_mem _ h)

theorem mem_aerase {α β : Type} [DecidableEq α]
    (m : List (α × β)) (k : α) (p : α × β) (h : p ∈ aerase m k) : p ∈ m := by
  induction m with
  | nil => simp [aerase] at h
  | cons q rest ih =>
    by_cases hq : q.1 = k
    · simp only [aerase, if_pos hq] at h
      exact List.mem_cons_of_mem _ h
    · simp only [aerase, if_neg hq] at h
      rcases List.mem_cons.mp h with h | h
      · exact h ▸ List.mem_cons_self _ _
      · exact List.mem_cons_of_mem _ (ih h)

theorem acontains_aset_ne {α β : Type} [DecidableEq α]
    (m : List (α × β)) (k k' : α) (v : β) (h : k' ≠ k) :
    acontains (aset m k v) k' = acontains m k' := by
  simp [acontains, alookup_aset_ne _ _ _ _ h]

theorem acontains_aerase_ne {α β : Type} [DecidableEq α]
    (m : List (α × β)) (k k' : α) (h : k' ≠ k) :
    acontains (aerase m k) k' = acontains m k' := by
  simp [acontains, alookup_aerase_ne _ _ _ h]

theorem blocked_inv_step (e : Edge) (s : SimState) (op : SimOp)
    (hinv : blocked_inv e s) (hav : op_avoids e op = true) :
    blocked_inv e (apply_sim_op s op) := by
  obtain ⟨hb, hm, hacc⟩ := hinv
  cases op with
  | createAcc u t sev dur now =>
    have hne : ((u, t) : Edge) ≠ e := of_decide_eq_true hav
    have hne2 : e ≠ ((u, t) : Edge) := Ne.symm hne
    rcases hup : aupdate s.traffic_multipliers (u, t)
        (fun m => m * severity_multiplier sev) with _ | m2
    · simp only [apply_sim_op, create_accident, hup, blocked_inv]
      refine ⟨hb, hm, ?_⟩
      intro p hp
      rcases mem_aset _ _ _ _ hp with h | h
      · subst h; exact hne
      · exact hacc p h
    · simp only [apply_sim_op, create_accident, hup, blocked_inv]
      refine ⟨hb, ?_, ?_⟩
      · rw [aupdate_some_lookup_ne _ _ _ _ _ hup hne2]; exact hm
      · intro p hp
        rcases mem_aset _ _ _ _ hp with h | h
        · subst h; exact hne
        · exact hacc p h
  | resolveAcc aid =>
    rcases hl : alookup s.accidents aid with _ | acc
    · simp only [apply_sim_op, resolve_accident, hl]
      exact ⟨hb, hm, hacc⟩
    · have hedge : ((acc.from_node, acc.to_node) : Edge) ≠ e :=
        hacc (aid, acc) (alookup_mem _ _ _ hl)
      have hedge2 : e ≠ ((acc.from_node, acc.to_node) : Edge) := Ne.symm hedge
      rcases hup : aupdate s.traffic_multipliers (acc.from_node, acc.to_node)
          (fun m => m / severity_multiplier acc.severity) with _ | m2
      · simp only [apply_sim_op, resolve_accident, hl, hup]
        exact ⟨hb, hm, hacc⟩
      · simp only [apply_sim_op, resolve_accident, hl, hup, blocked_inv]
        refine ⟨hb, ?_, ?_⟩
        · rw [aupdate_some_lookup_ne _ _ _ _ _ hup hedge2]; exact hm
        · intro p hp
          exact hacc p (mem_aerase _ _ _ hp)
  | blockOp u t r =>
    have hne : ((u, t) : Edge) ≠ e := of_decide_eq_true hav
    have hne2 : e ≠ ((u, t) : Edge) := Ne.symm hne
    cases hc : acontains s.traffic_multipliers (u, t) with
    | false =>
      simp only [apply_sim_op, block_road, hc]
      exact ⟨hb, hm, hacc⟩
    | true =>
      simp only [apply_sim_op, block_road, hc, if_true, blocked_inv]
      refine ⟨?_, ?_, hacc⟩
      · rw [acontains_aset_ne _ _ _ _ hne2]; exact hb
      · rw [alookup_aset_ne _ _ _ _ hne2]; exact hm
  | unblockOp u t =>
    have hne : ((u, t) : Edge) ≠ e := of_decide_eq_true hav
    have hne2 : e ≠ ((u, t) : Edge) := Ne.symm hne
    cases hc : acontains s.blocked_roads (u, t) with
    | false =>
      simp only [apply_sim_op, unblock_road, hc]
      exact ⟨hb, hm, hacc⟩
    | true =>
      simp only [apply_sim_op, unblock_road, hc, if_true, blocked_inv]
      refine ⟨?_, ?_, hacc⟩
      · rw [acontains_aerase_ne _ _ _ hne2]; exact hb
      · rw [alookup_aset_ne _ _ _ _ hne2]; exact hm
  | driftOp u t cf uu =>
    have hne2 : e ≠ ((u, t) : Edge) := Ne.symm (of_decide_eq_true hav)
    rcases hl : alookup s.traffic_multipliers (u, t) with _ | base
    · simp only [apply_sim_op, hotspot_drift, hl]
      exact ⟨hb, hm, hacc⟩
    · by_cases hcf : cf > 3 / 10
      · simp only [apply_sim_op, hotspot_drift, hl, if_pos hcf, blocked_inv]
        refine ⟨hb, ?_, hacc⟩
        rw [alookup_aset_ne _ _ _ _ hne2]; exact hm
      · simp only [apply_sim_op, hotspot_drift, hl, if_neg hcf]
        exact ⟨hb, hm, hacc⟩

theorem blocked_inv_block (s : SimState) (u t reason : String)
    (hkey : acontains s.traffic_multipliers (u, t) = true)
    (hacc : ∀ p ∈ s.accidents, ((p.2.from_node, p.2.to_node) : Edge) ≠ (u, t)) :
    (block_road s u t reason).2 = true ∧
    blocked_inv (u, t) (block_road s u t reason).1 := by
  simp only [block_road, hkey, if_true, blocked_inv]
  refine ⟨by simp, ?_, ?_, hacc⟩
  · simp [acontains, alookup_aset_self]
  · exact alookup_aset_self _ _ _

theorem blocked_inv_fold (e : Edge) (s : SimState) (ops : List SimOp)
    (hinv : blocked_inv e s) (hops : ∀ op ∈ ops, op_avoids e op = true) :
    blocked_inv e (ops.foldl apply_sim_op s) := by
  induction ops generalizing s with
  | nil => exact hinv
  | cons op rest ih =>
    rw [List.foldl_cons]
    exact ih (apply_sim_op s op)
      (blocked_inv_step e s op hinv (hops op (List.mem_cons_self _ _)))
      (fun o ho => hops o (List.mem_cons_of_mem _ ho))

/-- C2, amended: block_road(u, v) succeeds exactly on edges carried by the
multiplier table and then sets the edge's multiplier to exactly 100.0, and
the 100.0 (and the blocked marking) persists across any further sequence
of kernel operations - incident creation, incident resolution, blocks,
unblocks and hotspot drift - PROVIDED none of them targets the blocked
edge itself and no accident already sits on it; the blocked state is not
otherwise enforced: an incident created on the blocked edge itself, or
hotspot drift of that edge, does change its multiplier (see the
counterexample). -/
theorem c2_blocked_multiplier (s : SimState) (u t reason : String)
    (ops : List SimOp)
    (hkey : acontains s.traffic_multipliers (u, t) = true)
    (hacc : ∀ p ∈ s.accidents, ((p.2.from_node, p.2.to_node) : Edge) ≠ (u, t))
    (hops : ∀ op ∈ ops, op_avoids (u, t) op = true) :
    (block_road s u t reason).2 = true ∧
    alookup (block_road s u t reason).1.traffic_multipliers (u, t) =
      some 100 ∧
    alookup ((ops.foldl apply_sim_op
        (block_road s u t reason).1)).traffic_multipliers (u, t) =
      some 100 ∧
    acontains ((ops.foldl apply_sim_op
        (block_road s u t reason).1)).blocked_roads (u, t) = true := by
  obtain ⟨hret, hinv⟩ := blocked_inv_block s u t reason hkey hacc
  have hfold := blocked_inv_fold (u, t) _ ops hinv hops
  exact ⟨hret, hinv.2.1, hfold.2.1, hfold.1⟩

/-- Counterexample to C2 as stated: block (B, D), so the multiplier is
100.0, then create a minor accident on the still-blocked (B, D): the
multiplier becomes 200.0, not 100.0, while the edge remains in the block
set with no unblock in between. -/
theorem c2_counterexample :
    (block_road diamond_state "B" "D" "road_work").2 = true ∧
    alookup bd_blocked_state.traffic_multipliers ("B", "D") = some 100 ∧
    acontains (create_accident bd_blocked_state "B" "D" .minor 30 0).1.blocked_roads
      ("B", "D") = true ∧
    alookup (create_accident bd_blocked_state "B" "D" .minor 30 0).1.traffic_multipliers
      ("B", "D") = some 200 ∧
    (200 : ℚ) ≠ 100 := by
  have h4 : alookup (create_accident bd_blocked_state "B" "D" .minor 30 0).1.traffic_multipliers
      ("B", "D") = some (100 * severity_multiplier .minor) := rfl
  refine ⟨rfl, rfl, rfl, ?_, by norm_num⟩
  rw [h4]
  norm_num [severity_multiplier]

/-- Witness for c2_blocked_multiplier: block (B, D) on the diamond state
and run c2_ops, none of which targets (B, D); the multiplier stays 100. -/
theorem c2_blocked_multiplier_witness :
    (block_road diamond_state "B" "D" "road_work").2 = true ∧
    alookup (block_road diamond_state "B" "D" "road_work").1.traffic_multipliers
      ("B", "D") = some 100 ∧
    alookup ((c2_ops.foldl apply_sim_op
        (block_road diamond_state "B" "D" "road_work").1)).traffic_multipliers
      ("B", "D") = some 100 ∧
    acontains ((c2_ops.foldl apply_sim_op
        (block_road diamond_state "B" "D" "road_work").1)).blocked_roads
      ("B", "D") = true :=
  c2_blocked_multiplier diamond_state "B" "D" "road_work" c2_ops
    (by decide) (by decide) (by decide)

theorem cursor_inv_strong_set_path (v : Vehicle) (p : List String) (c : ℚ)
    (hp : 2 ≤ p.length) : cursor_inv_strong (set_path v p c) := by
  have hl : p.length > 1 := hp
  simp only [set_path, if_pos hl, cursor_inv_strong]
  refine ⟨by omega, by simp; omega, fun _ => ⟨by omega, by simp⟩⟩

theorem cursor_inv_strong_step (v : Vehicle) (op : AgentOp)
    (hinv : cursor_inv_strong v) (hok : agent_op_ok v op = true) :
    cursor_inv_strong (apply_agent_op v op) := by
  obtain ⟨h1, h2, h3⟩ := hinv
  cases op with
  | setPathOp p c =>
    exact cursor_inv_strong_set_path v p c (of_decide_eq_true hok)
  | advanceOp =>
    simp only [apply_agent_op]
    by_cases harr : v.status = VehicleStatus.arrived
    · have hidx : v.path_index + 1 = v.path.length := h2.mp harr
      have hguard : v.path = [] ∨
          (v.path_index : ℤ) ≥ (v.path.length : ℤ) - 1 := by
        right; omega
      have hmv : (move_to_next_node v).1 =
          { v with status := VehicleStatus.arrived } := by
        simp only [move_to_next_node, if_pos hguard]
      rw [hmv]
      simp only [cursor_inv_strong]
      simp
      omega
    · obtain ⟨hlt, hnext⟩ := h3 harr
      have hne : v.path ≠ [] := by
        intro hp
        rw [hp] at hlt
        simp at hlt
      have hguard : ¬(v.path = [] ∨
          (v.path_index : ℤ) ≥ (v.path.length : ℤ) - 1) := by
        push_neg
        exact ⟨hne, by omega⟩
      by_cases hin : v.path_index + 2 < v.path.length
      · have hcond : ((v.path_index + 1 : ℕ) : ℤ) < (v.path.length : ℤ) - 1 := by
          omega
        have hmv : (move_to_next_node v).1 =
            { v with path_index := v.path_index + 1
                     current_node := v.path.getD (v.path_index + 1) ""
                     next_node := some (v.path.getD (v.path_index + 1 + 1) "")
                     status := VehicleStatus.moving
                     position_on_edge := 0 } := by
          simp only [move_to_next_node, if_neg hguard, if_pos hcond]
        rw [hmv]
        simp only [cursor_inv_strong]
        simp
        omega
      · have hlen : v.path_index + 2 = v.path.length := by omega
        have hcond : ¬((v.path_index + 1 : ℕ) : ℤ) < (v.path.length : ℤ) - 1 := by
          omega
        have hmv : (move_to_next_node v).1 =
            { v with path_index := v.path_index + 1
                     current_node := v.path.getD (v.path_index + 1) ""
                     next_node := none
                     status := VehicleStatus.arrived } := by
          simp only [move_to_next_node, if_neg hguard, if_neg hcond]
        rw [hmv]
        simp only [cursor_inv_strong]
        simp
        omega
  | markArrivedOp =>
    have harr : v.status = VehicleStatus.arrived := of_decide_eq_true hok
    simp only [apply_agent_op]
    exact ⟨h1, ⟨fun _ => h2.mp harr, fun _ => rfl⟩, fun h => absurd rfl h⟩

theorem cursor_inv_of_strong (v : Vehicle) (h : cursor_inv_strong v) :
    cursor_inv v := by
  obtain ⟨h1, h2, h3⟩ := h
  refine ⟨?_, ?_⟩
  · rw [h2]
    omega
  · intro hne
    rw [(h3 hne).2]
    simp

theorem cursor_inv_strong_fold (v : Vehicle) (ops : List AgentOp)
    (hinv : cursor_inv_strong v) (hops : agent_ops_ok v ops = true) :
    cursor_inv_strong (apply_agent_ops v ops) := by
  induction ops generalizing v with
  | nil => exact hinv
  | cons op rest ih =>
    simp only [agent_ops_ok, Bool.and_eq_true] at hops
    exact ih (apply_agent_op v op)
      (cursor_inv_strong_step v op hinv hops.1) hops.2

/-- C9, amended: along the operation sequences the kernel itself produces -
set_path only with router paths of at least two nodes, and mark_arrived
only applied to an agent that is already ARRIVED (as simulation_tick pass B
does) - every reachable agent state satisfies: status = Arrived iff
path_index = len(path) - 1, and whenever status is not Arrived the next
node is defined.  Unrestricted use of the same public operations breaks
the invariant (see the counterexample). -/
theorem c9_cursor_invariant (v0 : Vehicle) (p : List String) (c : ℚ)
    (ops : List AgentOp) (hp : 2 ≤ p.length)
    (hops : agent_ops_ok (set_path v0 p c) ops = true) :
    cursor_inv (apply_agent_ops (set_path v0 p c) ops) :=
  cursor_inv_of_strong _
    (cursor_inv_strong_fold _ ops (cursor_inv_strong_set_path v0 p c hp) hops)

/-- Counterexample to C9 as stated: give a fresh car the path A, B, C and
then call the registry's mark_arrived on it; the status becomes ARRIVED
while path_index = 0 and len(path) - 1 = 2, so the claimed equivalence
fails for this sequence of the listed public operations. -/
theorem c9_counterexample :
    ¬cursor_inv (apply_agent_ops (mk_vehicle .car "A" "C" [] 0).1
      [AgentOp.setPathOp ["A", "B", "C"] 0, AgentOp.markArrivedOp]) := by
  decide

/-- Witness for c9_cursor_invariant: path A, B, C followed by two advances
and a (now legal) mark_arrived. -/
theorem c9_cursor_invariant_witness :
    cursor_inv (apply_agent_ops
      (set_path (mk_vehicle .car "A" "C" [] 0).1 ["A", "B", "C"] 0)
      [AgentOp.advanceOp, AgentOp.advanceOp, AgentOp.markArrivedOp]) :=
  c9_cursor_invariant (mk_vehicle .car "A" "C" [] 0).1 ["A", "B", "C"] 0
    [AgentOp.advanceOp, AgentOp.advanceOp, AgentOp.markArrivedOp]
    (by decide) (by decide)

theorem slow_down_stable (v : Vehicle) (gap md : ℚ) :
    (slow_down_for_vehicle_ahead v gap md).path = v.path ∧
    (slow_down_for_vehicle_ahead v gap md).path_index = v.path_index ∧
    (slow_down_for_vehicle_ahead v gap md).reroute_count = v.reroute_count := by
  unfold slow_down_for_vehicle_ahead
  by_cases h1 : gap < md
  · simp [h1]
  · by_cases h2 : gap < md * 2
    · simp [h1, h2]
    · by_cases h3 : v.status = VehicleStatus.stuck <;> simp [h1, h2, h3]

theorem deadband_target_eq (tm : ℚ) (v : Vehicle) :
    deadband_target tm v =
      { v with target_speed := (deadband_target tm v).target_speed } := by
  simp only [deadband_target]
  split_ifs <;> rfl

theorem deadband_control_stable (tm : ℚ) (v : Vehicle) :
    (deadband_control tm v).path = v.path ∧
    (deadband_control tm v).path_index = v.path_index ∧
    (deadband_control tm v).reroute_count = v.reroute_count := by
  simp only [deadband_control]
  rw [deadband_target_eq tm v]
  split_ifs <;> simp

theorem pass_a_unblocked_stable (s : SimState) (env : TickEnv) (v : Vehicle)
    (n : String) (hn : v.next_node = some n)
    (hb : acontains s.blocked_roads (v.current_node, n) = false) :
    (pass_a_vehicle s env v).path = v.path ∧
    (pass_a_vehicle s env v).path_index = v.path_index ∧
    (pass_a_vehicle s env v).reroute_count = v.reroute_count := by
  by_cases hskip : v.status = VehicleStatus.arrived ∨ v.next_node = none
  · simp only [pass_a_vehicle, if_pos hskip]
    simp
  · simp only [pass_a_vehicle, if_neg hskip]
    simp only [hn, Option.getD_some, hb, Bool.false_eq_true, if_false]
    cases hg : min_gap_ahead v
        (agetD env.edge_lengths (v.current_node, n) 100) env.others with
    | some gap =>
      simp only [hg]
      exact slow_down_stable v gap 30
    | none =>
      simp only [hg]
      exact deadband_control_stable _ v

/-- C1, amended: during pass A of a tick, the look-ahead check
(_should_reroute) runs only for an agent whose CURRENT edge is blocked.
When the current edge is not blocked, pass A leaves the agent's path,
cursor and reroute counter untouched in that tick even if the look-ahead
window contains a blocked edge or one with congestion probability above
0.5 (so the agent of spec scenario C is NOT rerouted on the next tick; see
the counterexample).  When the current edge is blocked and the cursor is
consistent, _should_reroute necessarily answers true - the current edge
lies in its own window - and the reroute procedure is invoked in that same
tick. -/
theorem c1_pass_a_reroute (s : SimState) (env : TickEnv) (v : Vehicle)
    (n : String) (hn : v.next_node = some n) :
    (acontains s.blocked_roads (v.current_node, n) = false →
      (pass_a_vehicle s env v).path = v.path ∧
      (pass_a_vehicle s env v).path_index = v.path_index ∧
      (pass_a_vehicle s env v).reroute_count = v.reroute_count) ∧
    (acontains s.blocked_roads (v.current_node, n) = true →
      v.status ≠ VehicleStatus.arrived →
      v.path.getD v.path_index "" = v.current_node →
      v.path.getD (v.path_index + 1) "" = n →
      v.path_index + 2 ≤ v.path.length →
      should_reroute s env.prob v = true ∧
      pass_a_vehicle s env v = reroute_vehicle env.route v) := by
  constructor
  · intro hb
    exact pass_a_unblocked_stable s env v n hn hb
  · intro hb hst hcur hnext hlen
    have hskip : ¬(v.status = VehicleStatus.arrived ∨ v.next_node = none) := by
      simp [hst, hn]
    have hplen : ¬(v.path = [] ∨ v.path.length < 2) := by
      push_neg
      refine ⟨?_, by omega⟩
      intro he
      rw [he] at hlen
      simp at hlen
    have hsr : should_reroute s env.prob v = true := by
      simp only [should_reroute, if_neg hplen]
      rw [Bool.or_eq_true]
      left
      rw [List.any_eq_true]
      refine ⟨(v.current_node, n), ?_, hb⟩
      unfold upcoming_edges
      rw [List.mem_map]
      refine ⟨v.path_index, ?_, ?_⟩
      · rw [List.mem_range'_1]
        omega
      · rw [hcur, hnext]
    constructor
    · exact hsr
    · simp only [pass_a_vehicle, if_neg hskip]
      simp only [hn, Option.getD_some, hb, if_true, hsr]

/-- Counterexample to C1 as stated (spec scenario C): the blocked edge
(B, D) lies in the scenario-C car's look-ahead window and _should_reroute
would answer true, the router offers the detour A, C, D, yet pass A leaves
the car's path, cursor and reroute counter untouched because its current
edge (A, B) is not blocked: no reroute is triggered in that tick. -/
theorem c1_counterexample :
    abd_car.next_node = some "B" ∧
    acontains bd_blocked_state.blocked_roads ("B", "D") = true ∧
    acontains bd_blocked_state.blocked_roads (abd_car.current_node, "B") = false ∧
    should_reroute bd_blocked_state scenario_env.prob abd_car = true ∧
    scenario_env.route.1 = ["A", "C", "D"] ∧
    abd_car.reroute_count = 0 ∧
    (pass_a_vehicle bd_blocked_state scenario_env abd_car).reroute_count = 0 ∧
    (pass_a_vehicle bd_blocked_state scenario_env abd_car).path = ["A", "B", "D"] ∧
    (pass_a_vehicle bd_blocked_state scenario_env abd_car).path_index = 0 := by
  obtain ⟨hp1, hp2, hp3⟩ := pass_a_unblocked_stable bd_blocked_state
    scenario_env abd_car "B" rfl (by decide)
  refine ⟨rfl, by decide, by decide, by decide, rfl, rfl, ?_, ?_, ?_⟩
  · rw [hp3]; decide
  · rw [hp1]; decide
  · rw [hp2]; decide

/-- Witness for c1_pass_a_reroute: the car standing on the blocked (B, D)
is put through the reroute procedure in pass A, while the scenario-C car
on the open (A, B) keeps path, cursor and counter. -/
theorem c1_pass_a_reroute_witness :
    should_reroute bd_blocked_state scenario_env.prob bd_car = true ∧
    pass_a_vehicle bd_blocked_state scenario_env bd_car =
      reroute_vehicle scenario_env.route bd_car ∧
    (pass_a_vehicle bd_blocked_state scenario_env abd_car).path = abd_car.path ∧
    (pass_a_vehicle bd_blocked_state scenario_env abd_car).path_index =
      abd_car.path_index ∧
    (pass_a_vehicle bd_blocked_state scenario_env abd_car).reroute_count =
      abd_car.reroute_count := by
  obtain ⟨_, h2⟩ := c1_pass_a_reroute bd_blocked_state scenario_env bd_car "D" rfl
  obtain ⟨ha, hbf⟩ := h2 (by decide) (by decide) (by decide) (by decide) (by decide)
  obtain ⟨h1, _⟩ := c1_pass_a_reroute bd_blocked_state scenario_env abd_car "B" rfl
  obtain ⟨hp1, hp2, hp3⟩ := h1 (by decide)
  exact ⟨ha, hbf, hp1, hp2, hp3⟩

theorem spawn_vehicle_counter (g : Graph) (m : VehicleManager) (idc : ℕ)
    (vt : VehicleType) (st gl : String) (route : List String × ℚ)
    (hg : g ≠ []) :
    (spawn_vehicle g m idc vt st gl route).2.1 = idc + 1 := by
  simp only [spawn_vehicle, if_neg hg, mk_vehicle]
  split_ifs <;> rfl

theorem spawn_drawn_eq (g : Graph) (hg : g ≠ []) :
    ∀ (reqs : List SpawnReq) (m : VehicleManager) (idc : ℕ),
      spawn_drawn g m idc reqs =
        (List.range reqs.length).map (fun i => idc + i + 1) := by
  intro reqs
  induction reqs with
  | nil => intro m idc; rfl
  | cons r rest ih =>
    intro m idc
    have hc := spawn_vehicle_counter g m idc r.vehicle_type r.start_node
      r.goal_node r.route hg
    simp only [spawn_drawn, hc]
    rw [if_pos (by omega)]
    rw [ih _ (idc + 1)]
    rw [List.length_cons, List.range_succ_eq_map, List.map_cons,
      List.map_map]
    simp only [List.singleton_append]
    congr 1
    apply List.map_congr_left
    intro a _
    simp only [Function.comp_apply]
    omega

theorem set_path_id (v : Vehicle) (p : List String) (c : ℚ) :
    (set_path v p c).id = v.id := by
  simp only [set_path]
  split_ifs <;> rfl

theorem spawn_drawn_nodup (g : Graph) (hg : g ≠ [])
    (reqs : List SpawnReq) (m : VehicleManager) (idc : ℕ) :
    (spawn_drawn g m idc reqs).Nodup := by
  rw [spawn_drawn_eq g hg reqs m idc]
  refine List.Nodup.map ?_ (List.nodup_range _)
  intro a b h
  have h2 : idc + a + 1 = idc + b + 1 := h
  omega

/-- C10: every Vehicle construction draws a fresh value from the single
class-level id counter; the counter advances even for a spawn whose
pathfinding fails and whose vehicle is discarded; the counter values drawn
between resets are the consecutive fresh naturals, hence pairwise
distinct, and each constructed vehicle's id is its kind string joined to
its drawn counter value; VehicleManager.reset zeroes the class-level
counter for every registry at once, so the next construction through any
registry is numbered 1; and the registered agents' suffixes need not be
consecutive (the concrete run registers car_1 and car_3). -/
theorem c10_id_counter (g : Graph) (m mB : VehicleManager) (idc : ℕ)
    (vt : VehicleType) (st gl : String) (route : List String × ℚ)
    (reqs : List SpawnReq) (hg : g ≠ []) :
    (spawn_vehicle g m idc vt st gl route).2.1 = idc + 1 ∧
    (route.1 = [] → (spawn_vehicle g m idc vt st gl route).2.2 = none ∧
      (spawn_vehicle g m idc vt st gl route).1 = m) ∧
    (∀ veh, (spawn_vehicle g m idc vt st gl route).2.2 = some veh →
      veh.id = vt.value ++ "_" ++ toString (idc + 1)) ∧
    spawn_drawn g m idc reqs =
      (List.range reqs.length).map (fun i => idc + i + 1) ∧
    (spawn_drawn g m idc reqs).Nodup ∧
    vm_reset m idc = (⟨[], [], []⟩, 0) ∧
    (spawn_vehicle g mB (vm_reset m idc).2 vt st gl route).2.1 = 1 ∧
    spawn_registered diamond_graph ⟨[], [], []⟩ 0 c10_reqs =
      ["car_1", "car_3"] := by
  refine ⟨spawn_vehicle_counter g m idc vt st gl route hg, ?_, ?_,
    spawn_drawn_eq g hg reqs m idc, spawn_drawn_nodup g hg reqs m idc,
    rfl, spawn_vehicle_counter g mB 0 vt st gl route hg, by decide⟩
  · intro hr
    have : ¬route.1 ≠ [] := by simp [hr]
    simp only [spawn_vehicle, if_neg hg, if_neg this]
    simp
  · intro veh hveh
    by_cases hr : route.1 ≠ []
    · simp only [spawn_vehicle, if_neg hg, if_pos hr] at hveh
      injection hveh with hveh
      subst hveh
      rw [set_path_id]
      rfl
    · simp only [spawn_vehicle, if_neg hg, if_neg hr] at hveh
      cases hveh

/-- Witness for c10_id_counter on the diamond graph with the three-request
run of c10_reqs. -/
theorem c10_id_counter_witness :
    (spawn_vehicle diamond_graph ⟨[], [], []⟩ 0 .car "A" "D"
      (["A", "B", "D"], 2)).2.1 = 0 + 1 ∧
    ((["A", "B", "D"] : List String) = [] →
      (spawn_vehicle diamond_graph ⟨[], [], []⟩ 0 .car "A" "D"
        (["A", "B", "D"], 2)).2.2 = none ∧
      (spawn_vehicle diamond_graph ⟨[], [], []⟩ 0 .car "A" "D"
        (["A", "B", "D"], 2)).1 = ⟨[], [], []⟩) ∧
    (∀ veh, (spawn_vehicle diamond_graph ⟨[], [], []⟩ 0 .car "A" "D"
        (["A", "B", "D"], 2)).2.2 = some veh →
      veh.id = VehicleType.car.value ++ "_" ++ toString (0 + 1)) ∧
    spawn_drawn diamond_graph ⟨[], [], []⟩ 0 c10_reqs =
      (List.range c10_reqs.length).map (fun i => 0 + i + 1) ∧
    (spawn_drawn diamond_graph ⟨[], [], []⟩ 0 c10_reqs).Nodup ∧
    vm_reset ⟨[], [], []⟩ 0 = (⟨[], [], []⟩, 0) ∧
    (spawn_vehicle diamond_graph ⟨[], [], []⟩
      (vm_reset ⟨[], [], []⟩ 0).2 .car "A" "D" (["A", "B", "D"], 2)).2.1 = 1 ∧
    spawn_registered diamond_graph ⟨[], [], []⟩ 0 c10_reqs =
      ["car_1", "car_3"] :=
  c10_id_counter diamond_graph ⟨[], [], []⟩ ⟨[], [], []⟩ 0 .car "A" "D"
    (["A", "B", "D"], 2) c10_reqs (by decide)

theorem SPEED_MULTIPLIERS_pos (t : VehicleType) : 0 < SPEED_MULTIPLIERS t := by
  cases t <;> norm_num [SPEED_MULTIPLIERS]

theorem good_mk_vehicle (vt : VehicleType) (st gl : String)
    (p : List String) (c : ℕ) : good_vehicle (mk_vehicle vt st gl p c).1 := by
  have h := SPEED_MULTIPLIERS_pos vt
  exact ⟨le_refl 0, (show (0 : ℚ) ≤ 1 by norm_num), le_refl 0, le_of_lt h,
    le_of_lt h, le_refl _, rfl, (show (0 : ℚ) ≤ 3 / 2 by norm_num)⟩

theorem good_set_path (v : Vehicle) (p : List String) (c : ℚ)
    (h : good_vehicle v) : good_vehicle (set_path v p c) := by
  simp only [set_path]
  split_ifs <;> exact h

theorem good_reroute (route : List String × ℚ) (v : Vehicle)
    (h : good_vehicle v) : good_vehicle (reroute_vehicle route v) := by
  obtain ⟨h1, h2, h3, h4, h5, h6, h7, h8⟩ := h
  have hsm : 0 ≤ v.speed_multiplier := le_trans h3 h4
  simp only [reroute_vehicle, set_path, increment_reroute]
  split_ifs
  · exact ⟨h1, h2, h3, h4, hsm, le_refl _, h7, h8⟩
  · exact ⟨h1, h2, h3, h4, hsm, le_refl _, h7, h8⟩
  · exact ⟨h1, h2, h3, h4, h5, h6, h7, h8⟩

theorem good_slow_down (v : Vehicle) (gap : ℚ) (h : good_vehicle v) :
    good_vehicle (slow_down_for_vehicle_ahead v gap 30) := by
  obtain ⟨h1, h2, h3, h4, h5, h6, h7, h8⟩ := h
  have hsm : 0 ≤ v.speed_multiplier := le_trans h3 h4
  simp only [slow_down_for_vehicle_ahead]
  split_ifs with hc1 hc2
  · exact ⟨h1, h2, h3, h4, le_refl 0, hsm, h7, h8⟩
  · have hg1 : (30 : ℚ) ≤ gap := not_lt.mp hc1
    have hfrac1 : 0 ≤ gap / (30 * 2 : ℚ) :=
      div_nonneg (by linarith) (by norm_num)
    have hfrac2 : gap / (30 * 2 : ℚ) ≤ 1 := by
      rw [div_le_one (by norm_num : (0 : ℚ) < 30 * 2)]
      linarith
    refine ⟨h1, h2, h3, h4, mul_nonneg hsm hfrac1, ?_, h7, h8⟩
    have := mul_le_mul_of_nonneg_left hfrac2 hsm
    simpa using this
  · exact ⟨h1, h2, h3, h4, hsm, le_refl _, h7, h8⟩
  · exact ⟨h1, h2, h3, h4, hsm, le_refl _, h7, h8⟩

theorem ideal_speed_bounds (tm : ℚ) (v : Vehicle)
    (hsm : 0 ≤ v.speed_multiplier) :
    0 ≤ ideal_speed_of tm v ∧ ideal_speed_of tm v ≤ v.speed_multiplier := by
  unfold ideal_speed_of
  split_ifs with h
  · have htm : 0 < tm := lt_trans one_pos h
    have hx1 : 0 ≤ max (1 / tm) (1 / 5 : ℚ) :=
      le_trans (by norm_num) (le_max_right _ _)
    have hx2 : max (1 / tm) (1 / 5 : ℚ) ≤ 1 := by
      apply max_le
      · rw [div_le_one htm]
        linarith
      · norm_num
    refine ⟨mul_nonneg hsm hx1, ?_⟩
    have := mul_le_mul_of_nonneg_left hx2 hsm
    simpa using this
  · exact ⟨hsm, le_refl _⟩

theorem good_deadband_target (tm : ℚ) (v : Vehicle) (h : good_vehicle v) :
    good_vehicle (deadband_target tm v) := by
  obtain ⟨h1, h2, h3, h4, h5, h6, h7, h8⟩ := h
  have hsm : 0 ≤ v.speed_multiplier := le_trans h3 h4
  obtain ⟨hi1, hi2⟩ := ideal_speed_bounds tm v hsm
  simp only [deadband_target]
  split_ifs
  · exact ⟨h1, h2, h3, h4, hsm, le_refl _, h7, h8⟩
  · exact ⟨h1, h2, h3, h4, h5, h6, h7, h8⟩
  · exact ⟨h1, h2, h3, h4, le_min (by linarith) hi1,
      le_trans (min_le_right _ _) hi2, h7, h8⟩
  · exact ⟨h1, h2, h3, h4, le_trans hi1 (le_max_left _ _),
      max_le hi2 (by linarith), h7, h8⟩
  · exact ⟨h1, h2, h3, h4, le_min (by linarith) hi1,
      le_trans (min_le_right _ _) hi2, h7, h8⟩
  · exact ⟨h1, h2, h3, h4, le_trans hi1 (le_max_left _ _),
      max_le hi2 (by linarith), h7, h8⟩
  · exact ⟨h1, h2, h3, h4, h5, h6, h7, h8⟩

theorem good_deadband_control (tm : ℚ) (v : Vehicle) (h : good_vehicle v) :
    good_vehicle (deadband_control tm v) := by
  have hg := good_deadband_target tm v h
  simp only [deadband_control]
  split_ifs <;> exact hg

theorem slew_bounds (cs ts acc dt M : ℚ) (hcs0 : 0 ≤ cs) (hts0 : 0 ≤ ts)
    (hcsM : cs ≤ M) (htsM : ts ≤ M) (hacc : 0 ≤ acc) (hdt : 0 ≤ dt) :
    0 ≤ (if |ts - cs| < acc * dt then ts
         else if ts - cs > 0 then cs + acc * dt else cs - acc * dt) ∧
    (if |ts - cs| < acc * dt then ts
     else if ts - cs > 0 then cs + acc * dt else cs - acc * dt) ≤ M := by
  have had : 0 ≤ acc * dt := mul_nonneg hacc hdt
  split_ifs with a1 a2
  · exact ⟨hts0, htsM⟩
  · have hb : acc * dt ≤ ts - cs := by
      have hx := not_lt.mp a1
      rwa [abs_of_pos a2] at hx
    constructor <;> linarith
  · have hd : ts - cs ≤ 0 := not_lt.mp a2
    have hb : acc * dt ≤ -(ts - cs) := by
      have hx := not_lt.mp a1
      rwa [abs_of_nonpos hd] at hx
    constructor <;> linarith

theorem good_update_position (v : Vehicle) (dt L : ℚ) (h : good_vehicle v)
    (hdt : 0 ≤ dt) (hL : 0 < L) : good_vehicle (update_position v dt L).1 := by
  obtain ⟨h1, h2, h3, h4, h5, h6, h7, h8⟩ := h
  by_cases c1 : v.status ≠ VehicleStatus.moving ∧ v.status ≠ VehicleStatus.stuck
  · simp only [update_position, if_pos c1]
    exact ⟨h1, h2, h3, h4, h5, h6, h7, h8⟩
  · simp only [update_position, if_neg c1]
    obtain ⟨hns0, hnsM⟩ := slew_bounds v.current_speed v.target_speed
      v.acceleration dt v.speed_multiplier h3 h5 h4 h6 h8 hdt
    by_cases c2 : v.position_on_edge +
        (if |v.target_speed - v.current_speed| < v.acceleration * dt then
          v.target_speed
        else if v.target_speed - v.current_speed > 0 then
          v.current_speed + v.acceleration * dt
        else v.current_speed - v.acceleration * dt) * dt / L ≥ 1
    · rw [if_pos c2]
      exact ⟨(show (0 : ℚ) ≤ 1 by norm_num), le_refl 1, hns0, hnsM,
        h5, h6, h7, h8⟩
    · rw [if_neg c2]
      refine ⟨?_, ?_, hns0, hnsM, h5, h6, h7, h8⟩
      · have hx := div_nonneg (mul_nonneg hns0 hdt) (le_of_lt hL)
        linarith
      · exact le_of_lt (not_le.mp c2)

theorem good_move (v : Vehicle) (h : good_vehicle v) :
    good_vehicle (move_to_next_node v).1 := by
  obtain ⟨h1, h2, h3, h4, h5, h6, h7, h8⟩ := h
  simp only [move_to_next_node]
  split_ifs
  · exact ⟨h1, h2, h3, h4, h5, h6, h7, h8⟩
  · exact ⟨le_refl 0, (show (0 : ℚ) ≤ 1 by norm_num), h3, h4, h5, h6, h7, h8⟩
  · exact ⟨h1, h2, h3, h4, h5, h6, h7, h8⟩

theorem agetD_pos (m : List (Edge × ℚ)) (k : Edge) (d : ℚ)
    (hm : ∀ p ∈ m, 0 < p.2) (hd : 0 < d) : 0 < agetD m k d := by
  unfold agetD
  rcases hl : alookup m k with _ | b
  · simpa using hd
  · simpa using hm (k, b) (alookup_mem m k b hl)

theorem good_pass_b (env : TickEnv) (v : Vehicle) (h : good_vehicle v)
    (henv : env_ok env) : good_vehicle (pass_b_vehicle env v) := by
  obtain ⟨hdt, hlen⟩ := henv
  by_cases c1 : v.status = VehicleStatus.arrived ∨ v.next_node = none
  · simp only [pass_b_vehicle, if_pos c1]
    exact h
  · simp only [pass_b_vehicle, if_neg c1]
    have hLpos : 0 < agetD env.edge_lengths
        (v.current_node, (v.next_node).getD "") 100 :=
      agetD_pos _ _ _ hlen (by norm_num)
    have hup := good_update_position v env.delta_time _ h hdt hLpos
    by_cases hr : (update_position v env.delta_time
        (agetD env.edge_lengths (v.current_node, (v.next_node).getD "") 100)).2 = true
    · rw [if_pos hr]
      exact good_move _ hup
    · rw [if_neg hr]
      exact hup

theorem good_pass_a (s : SimState) (env : TickEnv) (v : Vehicle)
    (h : good_vehicle v) : good_vehicle (pass_a_vehicle s env v) := by
  by_cases hskip : v.status = VehicleStatus.arrived ∨ v.next_node = none
  · simp only [pass_a_vehicle, if_pos hskip]
    exact h
  · simp only [pass_a_vehicle, if_neg hskip]
    cases hb : acontains s.blocked_roads
        (v.current_node, (v.next_node).getD "") with
    | true =>
      simp only [hb, if_true]
      by_cases hsr : should_reroute s env.prob v = true
      · rw [if_pos hsr]
        exact good_reroute env.route v h
      · rw [if_neg hsr]
        obtain ⟨h1, h2, h3, h4, h5, h6, h7, h8⟩ := h
        exact ⟨h1, h2, h3, h4, le_refl 0, le_trans h3 h4, h7, h8⟩
    | false =>
      simp only [hb, Bool.false_eq_true, if_false]
      cases hg : min_gap_ahead v
          (agetD env.edge_lengths (v.current_node, (v.next_node).getD "") 100)
          env.others with
      | some gap =>
        simp only [hg]
        exact good_slow_down v gap h
      | none =>
        simp only [hg]
        exact good_deadband_control _ v h

theorem good_tick_vehicle (s : SimState) (env : TickEnv) (v : Vehicle)
    (h : good_vehicle v) (henv : env_ok env) :
    good_vehicle (tick_vehicle s env v) :=
  good_pass_b env _ (good_pass_a s env v h) henv

theorem good_run_ticks (v : Vehicle) (ticks : List (SimState × TickEnv))
    (h : good_vehicle v) (henv : ∀ p ∈ ticks, env_ok p.2) :
    good_vehicle (run_ticks v ticks) := by
  induction ticks generalizing v with
  | nil => exact h
  | cons p rest ih =>
    exact ih (tick_vehicle p.1 p.2 v)
      (good_tick_vehicle p.1 p.2 v h (henv p (List.mem_cons_self _ _)))
      (fun q hq => henv q (List.mem_cons_of_mem _ hq))

/-- C8: a freshly constructed agent satisfies the kinematic invariant, and
across any sequence of ticks - each with its own kernel state, blocked
set, router results, leader gaps, analyzer probabilities, multipliers and
nonnegative delta time over positive cached edge lengths - every agent
ends every tick with 0 <= position_on_edge <= 1 and
0 <= current_speed <= max_speed of its kind (so a fortiori under any
epsilon slack). -/
theorem c8_tick_invariant (v0 : Vehicle) (ticks : List (SimState × TickEnv))
    (h0 : good_vehicle v0) (henv : ∀ p ∈ ticks, env_ok p.2) :
    (∀ (vt : VehicleType) (st gl : String) (p : List String) (c : ℕ),
      good_vehicle (mk_vehicle vt st gl p c).1) ∧
    0 ≤ (run_ticks v0 ticks).position_on_edge ∧
    (run_ticks v0 ticks).position_on_edge ≤ 1 ∧
    0 ≤ (run_ticks v0 ticks).current_speed ∧
    (run_ticks v0 ticks).current_speed ≤
      SPEED_MULTIPLIERS (run_ticks v0 ticks).vtype := by
  obtain ⟨g1, g2, g3, g4, _, _, g7, _⟩ := good_run_ticks v0 ticks h0 henv
  exact ⟨fun vt st gl p c => good_mk_vehicle vt st gl p c, g1, g2, g3, g7 ▸ g4⟩

/-- Witness for c8_tick_invariant: the scenario-C car through one tick of
the blocked diamond state. -/
theorem c8_tick_invariant_witness :
    (∀ (vt : VehicleType) (st gl : String) (p : List String) (c : ℕ),
      good_vehicle (mk_vehicle vt st gl p c).1) ∧
    0 ≤ (run_ticks abd_car [(bd_blocked_state, scenario_env)]).position_on_edge ∧
    (run_ticks abd_car [(bd_blocked_state, scenario_env)]).position_on_edge ≤ 1 ∧
    0 ≤ (run_ticks abd_car [(bd_blocked_state, scenario_env)]).current_speed ∧
    (run_ticks abd_car [(bd_blocked_state, scenario_env)]).current_speed ≤
      SPEED_MULTIPLIERS (run_ticks abd_car [(bd_blocked_state, scenario_env)]).vtype :=
  c8_tick_invariant abd_car [(bd_blocked_state, scenario_env)]
    (good_set_path (mk_vehicle .car "A" "D" [] 0).1 ["A", "B", "D"] 2
      (good_mk_vehicle .car "A" "D" [] 0))
    (by
      intro p hp
      rw [List.mem_singleton] at hp
      subst hp
      exact ⟨by norm_num [scenario_env], by simp [scenario_env]⟩)
